import Mathlib

/-!
Verification of the AuditFlow offline sync and background-upload subsystem.

This file gives a shallow embedding, in Lean, of the subsystem's code:

  * the Local Store operations of src/lib/db.js (audits and photos kept in an
    IndexedDB-like keyed store, modelled as lists of records keyed by id);
  * the background Upload Queue worker of src/unnamed/part_008 (the current
    revision, with bounded retry) and of src/lib/backgroundUpload.js (the
    legacy revision, single attempt, immediate blob deletion);
  * the Sync Engine of src/lib/sync.js (first revision in the file, the one
    that calls cleanupSyncedAuditPhotos): submitAudit, syncAuditWithRetry and
    syncPendingAudits;
  * a small-step two-invocation interleaving model of the syncPendingAudits
    mutual-exclusion guard.

External effects (Google Drive uploads, the submit endpoint, the OAuth token
provider, storage faults) are modelled as explicit oracle parameters; clock
values stand in for Date.now() timestamps; promise resolution/rejection and
listener notifications are recorded as events in a trace.
-/

namespace AuditFlow

/-- Audit lifecycle states, db.js line 70: draft, in_progress, completed, synced. -/
inductive AuditStatus
  | draft
  | in_progress
  | completed
  | synced
deriving DecidableEq, Repr

/-- Photo upload states, db.js line 212 / backgroundUpload PHOTO_STATUS. -/
inductive PhotoStatus
  | pending_upload
  | uploading
  | uploaded
  | failed
deriving DecidableEq, Repr

/-- One checklist item response: responses[itemId] = { response, remarks, updatedAt }. -/
structure ItemResponse where
  response : Nat
  remarks : String
  updatedAt : Nat
deriving DecidableEq, Repr

/-- A checklist item; the alternate key names (sl_no / slNo / item_id / itemId)
are separate optional fields, as in the stored JSON. -/
structure CItem where
  sl_no : Option String
  slNo : Option String
  item_id : Option String
  itemIdKey : Option String
  response : Option Nat
  remarks : Option String
deriving DecidableEq, Repr

/-- A checklist subsection (new structure). -/
structure CSub where
  items : List CItem
deriving DecidableEq, Repr

/-- A checklist section: optional subsections (new structure) and optional
items (old structure); absence of the key is `none`. -/
structure CSection where
  subsections : List CSub
  items : Option (List CItem)
deriving DecidableEq, Repr

/-- A checklist template as stored on the audit. -/
structure Checklist where
  sections : List CSection
deriving DecidableEq, Repr

/-- driveResources handles created at audit start. -/
structure DriveResources where
  photosFolderId : Option String
deriving DecidableEq, Repr

/-- An Audit record as stored in the audits object store (db.js createAudit). -/
structure Audit where
  id : Nat
  siteName : String
  status : AuditStatus
  createdAt : Nat
  updatedAt : Nat
  checklist : Option Checklist
  responses : List (String × ItemResponse)
  syncResult : Option Nat
  syncedAt : Option Nat
  driveResources : Option DriveResources
deriving DecidableEq, Repr

/-- A Photo record as stored in the photos object store (db.js savePhoto plus
the metadata fields merged in by updatePhotoStatus / deletePhotoBlob).
Blob contents and base64 strings are opaque (`Nat`). -/
structure Photo where
  id : Nat
  auditId : Nat
  itemId : String
  blob : Option Nat
  base64 : Option Nat
  filename : String
  status : PhotoStatus
  driveFileId : Option String
  driveLink : Option String
  uploadedAt : Option Nat
  retryCount : Nat
  lastError : Option String
  errorMsg : Option String
  lastAttempt : Option Nat
  blobDeleted : Bool
  blobDeletedAt : Option Nat
  createdAt : Nat
  updatedAt : Option Nat
deriving DecidableEq, Repr

/-- The Local Store: the two IndexedDB object stores, keyed by record id. -/
structure Store where
  audits : List Audit
  photos : List Photo
deriving DecidableEq, Repr

/-- Store-operation failures; db.js throws Error strings. -/
inductive DbError
  | auditNotFound
  | photoNotFound
deriving DecidableEq, Repr

-- ======================= db.js : audit operations =======================

/-- getAudit (db.js line 90): key lookup in the audits object store. -/
def getAudit (st : Store) (id : Nat) : Option Audit :=
  st.audits.find? (fun a => a.id == id)

/-- IndexedDB put on the audits object store: replace the record with the same
key if present, else append. -/
def putAudit (st : Store) (a : Audit) : Store :=
  if st.audits.any (fun x => x.id == a.id) then
    { st with audits := st.audits.map (fun x => if x.id == a.id then a else x) }
  else
    { st with audits := st.audits ++ [a] }

/-- getPhoto (db.js line 229). -/
def getPhoto (st : Store) (photoId : Nat) : Option Photo :=
  st.photos.find? (fun p => p.id == photoId)

/-- IndexedDB put on the photos object store. -/
def putPhoto (st : Store) (p : Photo) : Store :=
  if st.photos.any (fun x => x.id == p.id) then
    { st with photos := st.photos.map (fun x => if x.id == p.id then p else x) }
  else
    { st with photos := st.photos ++ [p] }

/-- The partial-field argument of updateAudit: the fields the subsystem's
callers pass; an absent field (`none`) leaves the stored value unchanged,
mirroring the object spread `{ ...audit, ...updates }`. -/
structure AuditUpdate where
  siteName : Option String := none
  status : Option AuditStatus := none
  checklist : Option (Option Checklist) := none
  responses : Option (List (String × ItemResponse)) := none
  syncResult : Option (Option Nat) := none
  syncedAt : Option (Option Nat) := none
  driveResources : Option (Option DriveResources) := none
deriving DecidableEq, Repr

/-- The merge `{ ...audit, ...updates, updatedAt: new Date().toISOString() }`
of db.js updateAudit (lines 112-116): updates override, updatedAt is bumped last. -/
def applyAuditUpdate (a : Audit) (u : AuditUpdate) (now : Nat) : Audit :=
  { a with
    siteName := u.siteName.getD a.siteName
    status := u.status.getD a.status
    checklist := u.checklist.getD a.checklist
    responses := u.responses.getD a.responses
    syncResult := u.syncResult.getD a.syncResult
    syncedAt := u.syncedAt.getD a.syncedAt
    driveResources := u.driveResources.getD a.driveResources
    updatedAt := now }

/-- updateAudit (db.js lines 106-126): throws Audit-not-found if the id is
absent (before any write), else puts the merged record and returns it. -/
def updateAudit (st : Store) (id : Nat) (u : AuditUpdate) (now : Nat) :
    Except DbError (Store × Audit) :=
  match getAudit st id with
  | none => .error .auditNotFound
  | some a =>
      let a2 := applyAuditUpdate a u now
      .ok (putAudit st a2, a2)

/-- Object-key assignment `responses[itemId] = r` on a copy of the responses
map: replace the binding if the key is present, else add it. -/
def setResponse (rs : List (String × ItemResponse)) (itemId : String)
    (r : ItemResponse) : List (String × ItemResponse) :=
  if rs.any (fun kv => kv.1 == itemId) then
    rs.map (fun kv => if kv.1 == itemId then (itemId, r) else kv)
  else
    rs ++ [(itemId, r)]

/-- Lookup `audit.responses[itemId]`. -/
def lookupResponse (rs : List (String × ItemResponse)) (itemId : String) :
    Option ItemResponse :=
  (rs.find? (fun kv => kv.1 == itemId)).map (fun kv => kv.2)

/-- updateItemResponse (db.js lines 131-139): records the response, then calls
updateAudit with the new responses map and, unconditionally, status
in_progress. -/
def updateItemResponse (st : Store) (auditId : Nat) (itemId : String)
    (respVal : Nat) (remarks : String) (now : Nat) :
    Except DbError (Store × Audit) :=
  match getAudit st auditId with
  | none => .error .auditNotFound
  | some a =>
      let rs := setResponse a.responses itemId
        { response := respVal, remarks := remarks, updatedAt := now }
      updateAudit st auditId
        { responses := some rs, status := some .in_progress } now

/-- createAudit (db.js lines 64-85): fresh record, status draft, empty
responses; IndexedDB add fails when the key already exists (no write). -/
def createAudit (st : Store) (newId : Nat) (siteName : String)
    (checklist : Option Checklist) (now : Nat) : Except DbError (Store × Audit) :=
  let a : Audit :=
    { id := newId, siteName := siteName, status := .draft, createdAt := now,
      updatedAt := now, checklist := checklist, responses := [],
      syncResult := none, syncedAt := none, driveResources := none }
  if st.audits.any (fun x => x.id == newId) then .error .auditNotFound
  else .ok ({ st with audits := st.audits ++ [a] }, a)

/-- getPendingAudits (db.js lines 160-163): all audits with status completed,
in store order. -/
def getPendingAudits (st : Store) : List Audit :=
  st.audits.filter (fun a => a.status == .completed)

/-- markAuditSynced (db.js lines 168-174). -/
def markAuditSynced (st : Store) (id : Nat) (syncResult : Nat) (now : Nat) :
    Except DbError (Store × Audit) :=
  updateAudit st id
    { status := some .synced, syncedAt := some (some now),
      syncResult := some (some syncResult) } now

-- ======================= db.js : photo operations =======================

/-- The metadata argument of updatePhotoStatus: the union of the fields passed
by the upload workers; fields not present leave the record unchanged. -/
structure PhotoPatch where
  driveFileId : Option String := none
  driveLink : Option String := none
  uploadedAt : Option Nat := none
  retryCount : Option Nat := none
  lastError : Option String := none
  errorMsg : Option String := none
  lastAttempt : Option Nat := none
deriving DecidableEq, Repr

/-- The merge `{ ...photo, status, ...metadata, updatedAt }` of db.js
updatePhotoStatus (lines 251-256). None of the workers' patches touches blob. -/
def applyPhotoPatch (p : Photo) (status : PhotoStatus) (m : PhotoPatch)
    (now : Nat) : Photo :=
  { p with
    status := status
    driveFileId := match m.driveFileId with | some v => some v | none => p.driveFileId
    driveLink := match m.driveLink with | some v => some v | none => p.driveLink
    uploadedAt := match m.uploadedAt with | some v => some v | none => p.uploadedAt
    retryCount := m.retryCount.getD p.retryCount
    lastError := match m.lastError with | some v => some v | none => p.lastError
    errorMsg := match m.errorMsg with | some v => some v | none => p.errorMsg
    lastAttempt := match m.lastAttempt with | some v => some v | none => p.lastAttempt
    updatedAt := some now }

/-- updatePhotoStatus (db.js lines 245-266): throws Photo-not-found if the id
is absent, else puts the merged record. -/
def updatePhotoStatus (st : Store) (photoId : Nat) (status : PhotoStatus)
    (m : PhotoPatch) (now : Nat) : Except DbError (Store × Photo) :=
  match getPhoto st photoId with
  | none => .error .photoNotFound
  | some p =>
      let p2 := applyPhotoPatch p status m now
      .ok (putPhoto st p2, p2)

/-- deletePhotoBlob (db.js lines 271-293): silently a no-op when the photo is
absent; otherwise clears the blob and marks it deleted, keeping metadata. -/
def deletePhotoBlob (st : Store) (photoId : Nat) (now : Nat) : Store :=
  match getPhoto st photoId with
  | none => st
  | some p =>
      putPhoto st { p with blob := none, blobDeleted := true,
                           blobDeletedAt := some now }

/-- getAuditPhotos (db.js lines 309-321): the auditId index. -/
def getAuditPhotos (st : Store) (auditId : Nat) : List Photo :=
  st.photos.filter (fun p => p.auditId == auditId)

/-- Modelled from the spec: `cleanupSyncedAuditPhotos` is imported by
src/lib/sync.js from ./db but its definition is not among the source files.
Per spec section 4.3 step 5 and the section 3 blob invariant, it purges the
retained blobs of the audit's uploaded photos (clearing each blob, keeping
metadata, as clearPhotoBlob does); the Boolean oracle `ok` models a storage
fault, which the caller treats as non-fatal. -/
def cleanupSyncedAuditPhotos (st : Store) (auditId : Nat) (now : Nat)
    (ok : Bool) : Except String Store :=
  if ok then
    .ok { st with photos := st.photos.map (fun p =>
      if p.auditId == auditId && p.status == .uploaded then
        { p with blob := none, blobDeleted := true, blobDeletedAt := some now }
      else p) }
  else
    .error "cleanup failed"

-- ================= Upload Queue worker (src/unnamed/part_008) =================

/-- The remote reference returned by the blob-transfer capability. -/
structure UploadResult where
  fileId : String
  webViewLink : String
deriving DecidableEq, Repr

/-- One entry of the in-memory uploadQueue. The promise's resolve/reject are
modelled as trace events keyed by the photo id; a task pushed by
queuePhotoUpload has no retryCount key, which the worker's destructuring
defaults to 0, so the field starts at 0. -/
structure UploadTask where
  photo : Photo
  auditId : Nat
  driveResources : Option DriveResources
  retryCount : Nat
deriving DecidableEq, Repr

deriving instance DecidableEq for Except

/-- The oracle for one uploadPhotoToDrive call: the outcome of
getValidAccessToken and, if that succeeds, the outcome of the network
transfer (Drive upload). -/
structure UploadCall where
  token : Except String Unit
  transfer : Except String UploadResult
deriving DecidableEq, Repr

/-- uploadPhotoToDrive (part_008 lines 53-113): obtain a token (failures and a
null token throw), then require a blob or base64 payload, then perform the
transfer. -/
def uploadPhotoToDrive (photo : Photo) (call : UploadCall) :
    Except String UploadResult :=
  match call.token with
  | .error e => .error e
  | .ok _ =>
      if photo.blob == none && photo.base64 == none then
        .error "No blob or base64 data available for upload"
      else call.transfer

/-- Events emitted by the upload worker: listener notifications
(queued/uploading/uploaded/retrying/failed/complete carry the pending count),
promise settlement, and setTimeout waits. -/
inductive UploadEv
  | queuedEv (photoId pending : Nat)
  | uploadingEv (photoId pending retryCount : Nat)
  | uploadedEv (photoId : Nat) (fileId : String) (pending : Nat)
  | resolvedEv (photoId : Nat) (fileId : String)
  | retryingEv (photoId retryCount pending : Nat)
  | waitedEv (ms : Nat)
  | failedEv (photoId : Nat) (err : String) (pending : Nat)
  | rejectedEv (photoId : Nat) (err : String)
  | completeEv
deriving DecidableEq, Repr

def MAX_RETRIES : Nat := 3
def RETRY_DELAY_MS : Nat := 2000

/-- An error escaping the worker loop: either a store exception thrown by an
updatePhotoStatus call in the catch handler (part_008 lines 198, 217), or the
model's fuel guard (unreachable with sufficient fuel, see
processQueueGo_no_fuelOut). -/
inductive QueueErr
  | fuelOut
  | db (e : DbError)
deriving DecidableEq, Repr

/-- Outcome of one iteration of the part_008 worker loop (lines 139-235). -/
inductive StepOut
  | cont (q : List UploadTask) (st : Store) (ev : List UploadEv)
      (net : List UploadCall) (clock : Nat)
  | escape (e : QueueErr) (st : Store) (ev : List UploadEv)
deriving DecidableEq, Repr

/-- Oracle entry used if the call list is exhausted; behaves as a failure. -/
def noOracle : UploadCall :=
  { token := .error "model: oracle exhausted", transfer := .error "model: oracle exhausted" }

/-- One iteration of the part_008 worker loop on head task `t` with `rest`
behind it. The try-block marks the photo uploading, transfers, and on success
records the Drive reference (retaining the blob); the catch either re-inserts
the task at the tail with retryCount+1, resets the photo to pending_upload
with lastError and waits RETRY_DELAY_MS, or (retries exhausted) marks the
photo failed and rejects the promise. Store exceptions inside the catch
handler escape the loop. -/
def processQueueStep (t : UploadTask) (rest : List UploadTask) (st : Store)
    (net : List UploadCall) (clock : Nat) : StepOut :=
  let pending := rest.length + 1
  let kcatch := fun (err : String) (stC : Store) (netC : List UploadCall)
      (evC : List UploadEv) =>
    if t.retryCount < MAX_RETRIES - 1 then
      -- re-insert at tail with incremented retry count, then reset the photo
      let q2 := rest ++ [{ t with retryCount := t.retryCount + 1 }]
      match updatePhotoStatus stC t.photo.id .pending_upload
          { retryCount := some (t.retryCount + 1), lastError := some err,
            lastAttempt := some clock } clock with
      | .error e2 => .escape (.db e2) stC evC
      | .ok (st3, _) =>
          .cont q2 st3
            (evC ++ [.retryingEv t.photo.id (t.retryCount + 1) q2.length,
                     .waitedEv RETRY_DELAY_MS])
            netC (clock + 1)
    else
      match updatePhotoStatus stC t.photo.id .failed
          { errorMsg := some err, lastAttempt := some clock,
            retryCount := some (t.retryCount + 1) } clock with
      | .error e2 => .escape (.db e2) stC evC
      | .ok (st3, _) =>
          .cont rest st3
            (evC ++ [.failedEv t.photo.id err rest.length,
                     .rejectedEv t.photo.id err])
            netC (clock + 1)
  match updatePhotoStatus st t.photo.id .uploading
      { retryCount := some t.retryCount } clock with
  | .error _ => kcatch "Photo not found" st net []
  | .ok (st1, _) =>
      let ev1 : List UploadEv := [.uploadingEv t.photo.id pending t.retryCount]
      let call := net.headD noOracle
      let net1 := net.tail
      match uploadPhotoToDrive t.photo call with
      | .error e => kcatch e st1 net1 ev1
      | .ok r =>
          match updatePhotoStatus st1 t.photo.id .uploaded
              { driveFileId := some r.fileId, driveLink := some r.webViewLink,
                uploadedAt := some clock, retryCount := some t.retryCount }
              clock with
          | .error _ => kcatch "Photo not found" st1 net1 ev1
          | .ok (st2, _) =>
              .cont rest st2
                (ev1 ++ [.uploadedEv t.photo.id r.fileId rest.length,
                         .resolvedEv t.photo.id r.fileId])
                net1 (clock + 1)

/-- Result of draining the queue (the while loop of part_008 processQueue). -/
structure QueueRun where
  outcome : Except QueueErr Unit
  store : Store
  events : List UploadEv
  net : List UploadCall
deriving DecidableEq, Repr

/-- The while loop of part_008 processQueue, by fuel; queueFuel below always
suffices (processQueueGo_no_fuelOut). -/
def processQueueGo : Nat → List UploadTask → Store → List UploadCall → Nat → QueueRun
  | 0, _, st, net, _ =>
      { outcome := .error .fuelOut, store := st, events := [], net := net }
  | _ + 1, [], st, net, _ =>
      { outcome := .ok (), store := st, events := [], net := net }
  | fuel + 1, t :: rest, st, net, clock =>
      match processQueueStep t rest st net clock with
      | .cont q2 st2 ev net2 clock2 =>
          let r := processQueueGo fuel q2 st2 net2 clock2
          { r with events := ev ++ r.events }
      | .escape e st2 ev =>
          { outcome := .error e, store := st2, events := ev, net := net }

/-- A fuel bound sufficient to drain `q`: each iteration either drops the head
task or consumes one unit of its remaining retry budget. -/
def queueFuel (q : List UploadTask) : Nat :=
  (q.map (fun t => MAX_RETRIES - t.retryCount)).sum + q.length + 1

/-- Final state of one processQueue invocation. -/
structure QueueResult where
  outcome : Except QueueErr Unit
  store : Store
  events : List UploadEv
  isUploading : Bool
deriving DecidableEq, Repr

/-- processQueue (part_008 lines 122-245): early return if another worker
instance is active or the queue is empty; else set isUploading, drain the
queue inside try/finally — the finally resets isUploading on every exit path,
and the final complete notification fires only on normal completion. -/
def processQueue (isUploading : Bool) (q : List UploadTask) (st : Store)
    (net : List UploadCall) (clock : Nat) : QueueResult :=
  if isUploading then
    { outcome := .ok (), store := st, events := [], isUploading := true }
  else if q.isEmpty then
    { outcome := .ok (), store := st, events := [], isUploading := false }
  else
    let r := processQueueGo (queueFuel q) q st net clock
    match r.outcome with
    | .ok _ =>
        { outcome := .ok (), store := r.store,
          events := r.events ++ [.completeEv], isUploading := false }
    | .error e =>
        { outcome := .error e, store := r.store, events := r.events,
          isUploading := false }

-- ============ Legacy worker (src/lib/backgroundUpload.js) ============

/-- uploadPhotoToDrive of the legacy revision (backgroundUpload.js lines
51-88): token then network; no local blob/base64 check. -/
def uploadPhotoToDriveLegacy (call : UploadCall) : Except String UploadResult :=
  match call.token with
  | .error e => .error e
  | .ok _ => call.transfer

/-- One iteration of the legacy worker loop (backgroundUpload.js lines
98-152): single attempt per task; on success it records the Drive reference
and then DELETES the photo's blob (line 122); on failure it marks the photo
failed and rejects. No retry, no try/finally around the loop. -/
def processQueueLegacyStep (t : UploadTask) (rest : List UploadTask)
    (st : Store) (net : List UploadCall) (clock : Nat) : StepOut :=
  let pending := rest.length + 1
  let kcatch := fun (err : String) (stC : Store) (netC : List UploadCall)
      (evC : List UploadEv) =>
    match updatePhotoStatus stC t.photo.id .failed
        { errorMsg := some err, lastAttempt := some clock } clock with
    | .error e2 => .escape (.db e2) stC evC
    | .ok (st3, _) =>
        .cont rest st3
          (evC ++ [.failedEv t.photo.id err rest.length,
                   .rejectedEv t.photo.id err])
          netC (clock + 1)
  match updatePhotoStatus st t.photo.id .uploading {} clock with
  | .error _ => kcatch "Photo not found" st net []
  | .ok (st1, _) =>
      let ev1 : List UploadEv := [.uploadingEv t.photo.id pending 0]
      let call := net.headD noOracle
      let net1 := net.tail
      match uploadPhotoToDriveLegacy call with
      | .error e => kcatch e st1 net1 ev1
      | .ok r =>
          match updatePhotoStatus st1 t.photo.id .uploaded
              { driveFileId := some r.fileId, driveLink := some r.webViewLink,
                uploadedAt := some clock } clock with
          | .error _ => kcatch "Photo not found" st1 net1 ev1
          | .ok (st2, _) =>
              let st3 := deletePhotoBlob st2 t.photo.id clock
              .cont rest st3
                (ev1 ++ [.uploadedEv t.photo.id r.fileId rest.length,
                         .resolvedEv t.photo.id r.fileId])
                net1 (clock + 1)

/-- The legacy worker's while loop. -/
def processQueueLegacyGo : Nat → List UploadTask → Store → List UploadCall → Nat → QueueRun
  | 0, _, st, net, _ =>
      { outcome := .error .fuelOut, store := st, events := [], net := net }
  | _ + 1, [], st, net, _ =>
      { outcome := .ok (), store := st, events := [], net := net }
  | fuel + 1, t :: rest, st, net, clock =>
      match processQueueLegacyStep t rest st net clock with
      | .cont q2 st2 ev net2 clock2 =>
          let r := processQueueLegacyGo fuel q2 st2 net2 clock2
          { r with events := ev ++ r.events }
      | .escape e st2 ev =>
          { outcome := .error e, store := st2, events := ev, net := net }

/-- processQueue of the legacy revision (backgroundUpload.js lines 93-160):
no try/finally, so an escaping store exception leaves isUploading set. Each
task gets exactly one attempt, so queue length + 1 is enough fuel. -/
def processQueueLegacy (isUploading : Bool) (q : List UploadTask) (st : Store)
    (net : List UploadCall) (clock : Nat) : QueueResult :=
  if isUploading || q.isEmpty then
    { outcome := .ok (), store := st, events := [], isUploading := isUploading }
  else
    let r := processQueueLegacyGo (q.length + 1) q st net clock
    match r.outcome with
    | .ok _ =>
        { outcome := .ok (), store := r.store,
          events := r.events ++ [.completeEv], isUploading := false }
    | .error e =>
        { outcome := .error e, store := r.store, events := r.events,
          isUploading := true }

-- ================= Sync Engine (src/lib/sync.js, first revision) =================

/-- One entry of the photos array in the submit payload (sync.js lines 67-96):
either an already-uploaded Drive reference or the reference obtained by a
direct upload during payload assembly. -/
structure PhotoPayload where
  itemId : String
  filename : String
  driveFileId : String
  driveLink : Option String
  alreadyUploaded : Bool
deriving DecidableEq, Repr

/-- Oracle for one submitAudit call: token outcome, one transfer outcome per
direct blob upload (consumed in photo order), and the fetch outcome of the
submit endpoint (its JSON result is opaque). -/
structure SubmitEnv where
  token : Except String Unit
  uploads : List (Except String UploadResult)
  fetchResult : Except String Nat
deriving DecidableEq, Repr

/-- The per-photo closure of submitAudit (sync.js lines 62-114): an uploaded
photo with a driveFileId contributes its recorded reference; otherwise a
present blob is uploaded directly to Drive now (counted in directUploads,
a failure skips the photo); a photo with neither is skipped. Returns the
payload entry (none = skipped, the closure returns null), the increments of
skippedPhotos and directUploads, and the remaining upload oracle. -/
def processPhotoForSubmit (p : Photo) (ups : List (Except String UploadResult)) :
    Option PhotoPayload × Nat × Nat × List (Except String UploadResult) :=
  if p.status == .uploaded && p.driveFileId.isSome then
    (some { itemId := p.itemId, filename := p.filename,
            driveFileId := p.driveFileId.getD "", driveLink := p.driveLink,
            alreadyUploaded := true }, 0, 0, ups)
  else if p.blob.isSome then
    match ups.headD (.error "model: oracle exhausted") with
    | .ok r =>
        (some { itemId := p.itemId, filename := p.filename,
                driveFileId := r.fileId, driveLink := some r.webViewLink,
                alreadyUploaded := true }, 0, 1, ups.tail)
    | .error _ => (none, 1, 1, ups.tail)
  else
    (none, 1, 0, ups)

/-- The photos.map / Promise.all of submitAudit: per-photo results in photo
order, with the skipped and direct-upload counters summed. -/
def buildPhotoData : List Photo → List (Except String UploadResult) →
    List (Option PhotoPayload) × Nat × Nat × List (Except String UploadResult)
  | [], ups => ([], 0, 0, ups)
  | p :: rest, ups =>
      let r1 := processPhotoForSubmit p ups
      let r2 := buildPhotoData rest r1.2.2.2
      (r1.1 :: r2.1, r1.2.1 + r2.2.1, r1.2.2.1 + r2.2.2.1, r2.2.2.2)

/-- Key of an item nested under a subsection: item.sl_no, or slNo, or item_id
(sync.js line 133). -/
def itemKeySub (it : CItem) : Option String :=
  (it.sl_no.orElse fun _ => it.slNo).orElse fun _ => it.item_id

/-- Key of an item directly under a section: item.item_id, or itemId, or
sl_no, or slNo (sync.js line 145). -/
def itemKeyOld (it : CItem) : Option String :=
  ((it.item_id.orElse fun _ => it.itemIdKey).orElse fun _ => it.sl_no).orElse
    fun _ => it.slNo

/-- Merge the recorded response for one checklist item, if any. -/
def mergeItem (rs : List (String × ItemResponse)) (key : CItem → Option String)
    (it : CItem) : CItem :=
  match key it with
  | none => it
  | some k =>
      match lookupResponse rs k with
      | none => it
      | some r => { it with response := some r.response, remarks := some r.remarks }

/-- The checklist-with-responses assembly of submitAudit (sync.js lines
127-153): items under non-empty subsections use the subsection key chain,
items directly under a section use the old key chain. -/
def mergeChecklist (cl : Checklist) (rs : List (String × ItemResponse)) : Checklist :=
  { sections := cl.sections.map fun sec =>
      let sec1 :=
        if 0 < sec.subsections.length then
          { sec with subsections := sec.subsections.map fun sub =>
              { items := sub.items.map (mergeItem rs itemKeySub) } }
        else sec
      match sec1.items with
      | none => sec1
      | some its => { sec1 with items := some (its.map (mergeItem rs itemKeyOld)) } }

/-- Observable outcome of a successful submitAudit call: the endpoint's
result together with the request body actually sent (photos payload and
merged checklist) and the assembly counters. -/
structure SubmitOut where
  result : Nat
  photosPayload : List (Option PhotoPayload)
  checklistSent : Checklist
  skipped : Nat
  directUploads : Nat
  warned : Bool
deriving DecidableEq, Repr

/-- submitAudit (sync.js lines 49-186): token, photo payload assembly (total:
per-photo failures are caught and counted, never thrown), checklist merge
(accessing sections of a null checklist throws), then the fetch whose non-ok
response throws. A skipped-photos count greater than zero is surfaced as a
recorded warning (console.warn, line 123). -/
def submitAudit (audit : Audit) (photos : List Photo) (env : SubmitEnv) :
    Except String SubmitOut :=
  match env.token with
  | .error e => .error e
  | .ok _ =>
      let r := buildPhotoData photos env.uploads
      match audit.checklist with
      | none => .error "TypeError: cannot read sections of null"
      | some cl =>
          let merged := mergeChecklist cl audit.responses
          match env.fetchResult with
          | .error e => .error e
          | .ok res =>
              .ok { result := res, photosPayload := r.1, checklistSent := merged,
                    skipped := r.2.1, directUploads := r.2.2.1,
                    warned := r.2.1 != 0 }

/-- Events of the Sync Engine: listener notifications, setTimeout waits, the
markAuditSynced write and the blob-cleanup attempt. -/
inductive SyncEv
  | syncStartEv (auditId attempt : Nat)
  | markSyncedEv (auditId : Nat)
  | cleanupEv (auditId : Nat) (ok : Bool)
  | syncSuccessEv (auditId : Nat)
  | syncRetryEv (auditId attempt delayMs : Nat)
  | syncWaitEv (ms : Nat)
  | syncErrorEv (auditId : Nat) (msg : String)
  | batchStartEv (count : Nat)
  | batchCompleteEv (okCount failCount : Nat)
deriving DecidableEq, Repr

/-- Oracle for one attempt of syncAuditWithRetry: the submit oracle plus the
outcome of the (non-fatal) blob cleanup on success. -/
structure AttemptEnv where
  submit : SubmitEnv
  cleanupOk : Bool
deriving DecidableEq, Repr

/-- Oracle entry used when the attempt list is exhausted; behaves as failure. -/
def defaultAttemptEnv : AttemptEnv :=
  { submit := { token := .error "model: oracle exhausted", uploads := [],
                fetchResult := .error "model: oracle exhausted" },
    cleanupOk := true }

/-- Result of syncAuditWithRetry for one audit. -/
structure SyncAuditOut where
  success : Bool
  result : Option Nat
  errMsg : Option String
  store : Store
  events : List SyncEv
deriving DecidableEq, Repr

/-- The attempt loop of syncAuditWithRetry (sync.js lines 194-245): each
attempt re-fetches the audit's photos and submits; on success it marks the
audit synced and then attempts the blob cleanup, whose failure is caught and
non-fatal; on failure with attempt < maxRetries it waits 2^attempt seconds
and retries; after the loop it notifies the final error. `left` counts the
loop iterations still allowed (maxRetries - attempt + 1). -/
def syncAttempts (audit : Audit) (maxRetries : Nat) :
    Nat → Nat → Store → List AttemptEnv → Option String → Nat → SyncAuditOut
  | _, 0, st, _, lastError, _ =>
      let m := lastError.getD "model: no attempt"
      { success := false, result := none, errMsg := some m, store := st,
        events := [.syncErrorEv audit.id m] }
  | attempt, left + 1, st, envs, _, clock =>
      let env := envs.headD defaultAttemptEnv
      let evStart : List SyncEv := [.syncStartEv audit.id attempt]
      let photos := getAuditPhotos st audit.id
      match submitAudit audit photos env.submit with
      | .error e =>
          if attempt < maxRetries then
            let delay := 2 ^ attempt * 1000
            let r := syncAttempts audit maxRetries (attempt + 1) left st
              envs.tail (some e) (clock + 1)
            { r with events := evStart ++
                [.syncRetryEv audit.id attempt delay, .syncWaitEv delay] ++ r.events }
          else
            let r := syncAttempts audit maxRetries (attempt + 1) left st
              envs.tail (some e) (clock + 1)
            { r with events := evStart ++ r.events }
      | .ok out =>
          match markAuditSynced st audit.id out.result clock with
          | .error _ =>
              -- the store threw inside the try: caught, treated as a failed attempt
              if attempt < maxRetries then
                let delay := 2 ^ attempt * 1000
                let r := syncAttempts audit maxRetries (attempt + 1) left st
                  envs.tail (some "Audit not found") (clock + 1)
                { r with events := evStart ++
                    [.syncRetryEv audit.id attempt delay, .syncWaitEv delay] ++ r.events }
              else
                let r := syncAttempts audit maxRetries (attempt + 1) left st
                  envs.tail (some "Audit not found") (clock + 1)
                { r with events := evStart ++ r.events }
          | .ok (st2, _) =>
              match cleanupSyncedAuditPhotos st2 audit.id clock env.cleanupOk with
              | .ok st3 =>
                  { success := true, result := some out.result, errMsg := none,
                    store := st3,
                    events := evStart ++ [.markSyncedEv audit.id,
                      .cleanupEv audit.id true, .syncSuccessEv audit.id] }
              | .error _ =>
                  { success := true, result := some out.result, errMsg := none,
                    store := st2,
                    events := evStart ++ [.markSyncedEv audit.id,
                      .cleanupEv audit.id false, .syncSuccessEv audit.id] }

/-- syncAuditWithRetry (sync.js lines 191-255), attempt numbering from 1. -/
def syncAuditWithRetry (audit : Audit) (st : Store) (maxRetries : Nat)
    (envs : List AttemptEnv) (clock : Nat) : SyncAuditOut :=
  syncAttempts audit maxRetries 1 maxRetries st envs none clock

/-- The sequential per-audit loop of syncPendingAudits (sync.js lines
288-296): accumulate synced and failed counts, per-audit events in order. -/
def syncBatchGo : List Audit → Store → List (List AttemptEnv) → Nat →
    Nat × Nat × Store × List SyncEv
  | [], st, _, _ => (0, 0, st, [])
  | a :: rest, st, envs, clock =>
      let r := syncAuditWithRetry a st 3 (envs.headD []) clock
      let rec2 := syncBatchGo rest r.store envs.tail (clock + 1)
      ((if r.success then 1 else 0) + rec2.1,
       (if r.success then 0 else 1) + rec2.2.1,
       rec2.2.2.1, r.events ++ rec2.2.2.2)

/-- Result of one syncPendingAudits invocation; isSyncing is the final value
of the module-level guard, outcome records an escaped exception. -/
structure BatchResult where
  outcome : Except String Unit
  synced : Nat
  failed : Nat
  offlineFlag : Bool
  isSyncing : Bool
  store : Store
  events : List SyncEv
deriving DecidableEq, Repr

/-- syncPendingAudits (sync.js lines 260-308): zero-count early return when a
batch is already in progress or the device is offline; otherwise the guard is
set, the pending audits fetched (a store fault here escapes) and processed
sequentially inside try/finally — the finally resets the guard on every exit
path, normal or exceptional. -/
def syncPendingAudits (isSyncing online : Bool) (st : Store)
    (fetchOk : Except String Unit) (envs : List (List AttemptEnv))
    (clock : Nat) : BatchResult :=
  if isSyncing then
    { outcome := .ok (), synced := 0, failed := 0, offlineFlag := false,
      isSyncing := true, store := st, events := [] }
  else if !online then
    { outcome := .ok (), synced := 0, failed := 0, offlineFlag := true,
      isSyncing := false, store := st, events := [] }
  else
    match fetchOk with
    | .error e =>
        { outcome := .error e, synced := 0, failed := 0, offlineFlag := false,
          isSyncing := false, store := st, events := [] }
    | .ok _ =>
        let pending := getPendingAudits st
        if pending.isEmpty then
          { outcome := .ok (), synced := 0, failed := 0, offlineFlag := false,
            isSyncing := false, store := st, events := [] }
        else
          let r := syncBatchGo pending st envs clock
          { outcome := .ok (), synced := r.1, failed := r.2.1,
            offlineFlag := false, isSyncing := false, store := r.2.2.1,
            events := [.batchStartEv pending.length] ++ r.2.2.2 ++
              [.batchCompleteEv r.1 r.2.1] }

-- ========== Two overlapping syncPendingAudits invocations (claim C5) ==========

/-- The two concurrent invocations of the no-double-submit property. -/
inductive Tid
  | A
  | B
deriving DecidableEq, Repr

/-- Program counter of one syncPendingAudits invocation, at the granularity
of its suspension points. The guard check and guard set (sync.js lines
261-271) run synchronously with no await between them, hence form one atomic
step; each audit submission is a step; the final step is the finally that
resets the guard and returns. -/
inductive SyncPC
  | ready
  | running (remaining : List Nat) (okCnt failCnt : Nat)
  | finished (okCnt failCnt : Nat) (offlineFlag : Bool)
deriving DecidableEq, Repr

/-- Shared state of the two invocations: the module-level isSyncing guard,
connectivity, and the ids of the pending (completed) audits. -/
structure SyncSys where
  flag : Bool
  online : Bool
  pending : List Nat
  pcA : SyncPC
  pcB : SyncPC
deriving DecidableEq, Repr

/-- One step of one invocation; `res` gives each audit's submit outcome.
Returns the new program counter, the new guard value and the ids submitted
during the step. -/
def stepThread (res : Nat → Bool) (flag online : Bool) (pending : List Nat) :
    SyncPC → SyncPC × Bool × List Nat
  | .ready =>
      if flag then (.finished 0 0 false, flag, [])
      else if !online then (.finished 0 0 true, flag, [])
      else (.running pending 0 0, true, [])
  | .running [] s f => (.finished s f false, false, [])
  | .running (x :: rest) s f =>
      (if res x then .running rest (s + 1) f else .running rest s (f + 1),
       flag, [x])
  | .finished s f o => (.finished s f o, flag, [])

/-- Step the chosen invocation; submissions are tagged with the thread. -/
def sysStep (res : Nat → Bool) (s : SyncSys) (t : Tid) :
    SyncSys × List (Tid × Nat) :=
  match t with
  | .A =>
      let r := stepThread res s.flag s.online s.pending s.pcA
      ({ s with pcA := r.1, flag := r.2.1 }, r.2.2.map (fun x => (.A, x)))
  | .B =>
      let r := stepThread res s.flag s.online s.pending s.pcB
      ({ s with pcB := r.1, flag := r.2.1 }, r.2.2.map (fun x => (.B, x)))

/-- Run a schedule (an arbitrary interleaving of the two invocations). -/
def sysRun (res : Nat → Bool) : List Tid → SyncSys → SyncSys × List (Tid × Nat)
  | [], s => (s, [])
  | t :: sched, s =>
      let r1 := sysStep res s t
      let r2 := sysRun res sched r1.1
      (r2.1, r1.2 ++ r2.2)

/-- Initial state: guard clear, online, both invocations not yet started. -/
def initSys (pending : List Nat) : SyncSys :=
  { flag := false, online := true, pending := pending,
    pcA := .ready, pcB := .ready }

/-- An invocation is mid-batch: it has set the guard and not yet run its
finally. -/
def inBatch : SyncPC → Bool
  | .running _ _ _ => true
  | _ => false

-- ========== Local Store operation sequences (claim C3) ==========

/-- The Local Store operations of the audit-status claim. createAudit's fresh
id is made explicit. -/
inductive StoreOp
  | createOp (newId : Nat) (siteName : String) (checklist : Option Checklist)
  | updateOp (id : Nat) (u : AuditUpdate)
  | respondOp (id : Nat) (itemId : String) (respVal : Nat) (remarks : String)
  | syncOp (id : Nat) (syncResult : Nat)
deriving Repr

/-- Apply one operation; a thrown NotFound (or duplicate-key add) leaves the
store unchanged, as db.js throws before any write. -/
def applyOp (st : Store) (clock : Nat) : StoreOp → Store
  | .createOp i s c =>
      match createAudit st i s c clock with
      | .ok r => r.1
      | .error _ => st
  | .updateOp i u =>
      match updateAudit st i u clock with
      | .ok r => r.1
      | .error _ => st
  | .respondOp i k v rem =>
      match updateItemResponse st i k v rem clock with
      | .ok r => r.1
      | .error _ => st
  | .syncOp i r =>
      match markAuditSynced st i r clock with
      | .ok r2 => r2.1
      | .error _ => st

/-- Apply a sequence of operations with a ticking clock. -/
def applyOps (st : Store) (clock : Nat) : List StoreOp → Store
  | [] => st
  | op :: rest => applyOps (applyOp st clock op) (clock + 1) rest

/-- Position of a status along draft → in_progress → completed → synced. -/
def statusRank : AuditStatus → Nat
  | .draft => 0
  | .in_progress => 1
  | .completed => 2
  | .synced => 3

/-- An operation is forward for the current store if it does not request a
backward status: an updateAudit carrying a status of lower rank, or an
updateItemResponse on an audit already completed or synced (which db.js would
reset to in_progress), are the excluded cases. -/
def opForward (st : Store) : StoreOp → Prop
  | .updateOp i u => ∀ a, getAudit st i = some a →
      ∀ s, u.status = some s → statusRank a.status ≤ statusRank s
  | .respondOp i _ _ _ => ∀ a, getAudit st i = some a → statusRank a.status ≤ 1
  | _ => True

/-- Every operation of a sequence is forward for the store it is applied to. -/
def opsForward (st : Store) (clock : Nat) : List StoreOp → Prop
  | [] => True
  | op :: rest => opForward st op ∧ opsForward (applyOp st clock op) (clock + 1) rest

-- ======================= Store lemmas =======================

theorem find?_replace_ne {α : Type} (key : α → Nat) (a : α) (i : Nat)
    (l : List α) (hne : key a ≠ i) :
    (l.map (fun x => if key x == key a then a else x)).find?
        (fun x => key x == i) =
      l.find? (fun x => key x == i) := by
  induction l with
  | nil => rfl
  | cons x xs ih =>
      rw [List.map_cons]
      by_cases hx : key x = key a
      · rw [show (if key x == key a then a else x) = a by simp [hx]]
        rw [List.find?_cons_of_neg (p := fun y => key y == i) _ (by simp [hne]),
            List.find?_cons_of_neg (p := fun y => key y == i) _ (by simp [hx, hne])]
        exact ih
      · rw [show (if key x == key a then a else x) = x by simp [hx]]
        by_cases h2 : key x = i
        · rw [List.find?_cons_of_pos (p := fun y => key y == i) _ (by simp [h2]),
              List.find?_cons_of_pos (p := fun y => key y == i) _ (by simp [h2])]
        · rw [List.find?_cons_of_neg (p := fun y => key y == i) _ (by simp [h2]),
              List.find?_cons_of_neg (p := fun y => key y == i) _ (by simp [h2])]
          exact ih

theorem find?_replace_hit {α : Type} (key : α → Nat) (a : α) (l : List α)
    (hany : l.any (fun x => key x == key a) = true) :
    (l.map (fun x => if key x == key a then a else x)).find?
        (fun x => key x == key a) = some a := by
  induction l with
  | nil => simp at hany
  | cons x xs ih =>
      rw [List.map_cons]
      by_cases hx : key x = key a
      · rw [show (if key x == key a then a else x) = a by simp [hx]]
        rw [List.find?_cons_of_pos (p := fun y => key y == key a) _ (by simp)]
      · rw [show (if key x == key a then a else x) = x by simp [hx]]
        rw [List.find?_cons_of_neg (p := fun y => key y == key a) _ (by simp [hx])]
        have hx2 : (key x == key a) = false := by simp [hx]
        simp only [List.any_cons, hx2, Bool.false_or] at hany
        exact ih hany

theorem find?_none_of_any_false {α : Type} (key : α → Nat) (i : Nat)
    (l : List α) (hany : l.any (fun x => key x == i) = false) :
    l.find? (fun x => key x == i) = none := by
  induction l with
  | nil => rfl
  | cons x xs ih =>
      simp only [List.any_cons, Bool.or_eq_false_iff] at hany
      simp [List.find?_cons, hany.1, ih hany.2]

theorem getAudit_putAudit (st : Store) (a : Audit) (i : Nat) :
    getAudit (putAudit st a) i = if a.id = i then some a else getAudit st i := by
  unfold getAudit putAudit
  by_cases hany : st.audits.any (fun x => x.id == a.id) = true
  · simp only [hany, if_true]
    by_cases hi : a.id = i
    · subst hi
      simpa using find?_replace_hit (fun x : Audit => x.id) a st.audits hany
    · simpa [hi] using find?_replace_ne (fun x : Audit => x.id) a i st.audits hi
  · simp only [Bool.not_eq_true] at hany
    simp only [hany, Bool.false_eq_true, if_false]
    rw [List.find?_append]
    by_cases hi : a.id = i
    · subst hi
      rw [find?_none_of_any_false (fun x : Audit => x.id) a.id st.audits hany]
      simp
    · have : (a.id == i) = false := by simp [hi]
      cases h2 : st.audits.find? (fun x => x.id == i) <;>
        simp [hi, h2, List.find?_cons, this, Option.orElse]

theorem getPhoto_putPhoto (st : Store) (p : Photo) (i : Nat) :
    getPhoto (putPhoto st p) i = if p.id = i then some p else getPhoto st i := by
  unfold getPhoto putPhoto
  by_cases hany : st.photos.any (fun x => x.id == p.id) = true
  · simp only [hany, if_true]
    by_cases hi : p.id = i
    · subst hi
      simpa using find?_replace_hit (fun x : Photo => x.id) p st.photos hany
    · simpa [hi] using find?_replace_ne (fun x : Photo => x.id) p i st.photos hi
  · simp only [Bool.not_eq_true] at hany
    simp only [hany, Bool.false_eq_true, if_false]
    rw [List.find?_append]
    by_cases hi : p.id = i
    · subst hi
      rw [find?_none_of_any_false (fun x : Photo => x.id) p.id st.photos hany]
      simp
    · have : (p.id == i) = false := by simp [hi]
      cases h2 : st.photos.find? (fun x => x.id == i) <;>
        simp [hi, h2, List.find?_cons, this, Option.orElse]

theorem putAudit_photos (st : Store) (a : Audit) :
    (putAudit st a).photos = st.photos := by
  unfold putAudit
  split <;> rfl

theorem putPhoto_audits (st : Store) (p : Photo) :
    (putPhoto st p).audits = st.audits := by
  unfold putPhoto
  split <;> rfl

theorem getAudit_id (st : Store) (i : Nat) (a : Audit)
    (h : getAudit st i = some a) : a.id = i := by
  have := List.find?_some h
  simpa using this

theorem getPhoto_id (st : Store) (i : Nat) (p : Photo)
    (h : getPhoto st i = some p) : p.id = i := by
  have := List.find?_some h
  simpa using this

theorem applyAuditUpdate_id (a : Audit) (u : AuditUpdate) (now : Nat) :
    (applyAuditUpdate a u now).id = a.id := rfl

theorem applyPhotoPatch_id (p : Photo) (s : PhotoStatus) (m : PhotoPatch)
    (now : Nat) : (applyPhotoPatch p s m now).id = p.id := rfl

theorem applyPhotoPatch_blob (p : Photo) (s : PhotoStatus) (m : PhotoPatch)
    (now : Nat) : (applyPhotoPatch p s m now).blob = p.blob := rfl

theorem updatePhotoStatus_ok (st : Store) (pid : Nat) (s : PhotoStatus)
    (m : PhotoPatch) (clock : Nat) (p : Photo) (h : getPhoto st pid = some p) :
    updatePhotoStatus st pid s m clock =
      .ok (putPhoto st (applyPhotoPatch p s m clock), applyPhotoPatch p s m clock) := by
  unfold updatePhotoStatus
  rw [h]

theorem updateAudit_ok (st : Store) (id : Nat) (u : AuditUpdate) (now : Nat)
    (a : Audit) (h : getAudit st id = some a) :
    updateAudit st id u now =
      .ok (putAudit st (applyAuditUpdate a u now), applyAuditUpdate a u now) := by
  unfold updateAudit
  rw [h]

-- ======================= Claim C9 =======================

/-- C9: updateAudit fails with NotFound exactly when the id is absent; on
success it returns the audit with the partial fields merged and updatedAt
bumped to now, that exact record is what the store holds for the id
afterwards, and every other record is untouched (no partial write visible).
The NotFound throw happens before any write, so on failure nothing changes. -/
theorem updateAudit_notfound_atomic (st : Store) (id : Nat) (u : AuditUpdate)
    (now : Nat) :
    (updateAudit st id u now = .error .auditNotFound ↔ getAudit st id = none) ∧
    (∀ a, getAudit st id = some a →
      ∃ st2, updateAudit st id u now = .ok (st2, applyAuditUpdate a u now) ∧
        (applyAuditUpdate a u now).updatedAt = now ∧
        getAudit st2 id = some (applyAuditUpdate a u now) ∧
        ∀ j, j ≠ id → getAudit st2 j = getAudit st j) := by
  constructor
  · constructor
    · intro h
      cases hg : getAudit st id with
      | none => rfl
      | some a => rw [updateAudit_ok st id u now a hg] at h; exact absurd h (by simp)
    · intro h
      unfold updateAudit
      rw [h]
  · intro a h
    have hid : a.id = id := getAudit_id st id a h
    refine ⟨putAudit st (applyAuditUpdate a u now), updateAudit_ok st id u now a h,
      rfl, ?_, ?_⟩
    · rw [getAudit_putAudit]
      simp [applyAuditUpdate_id, hid]
    · intro j hj
      rw [getAudit_putAudit]
      simp [applyAuditUpdate_id, hid, (Ne.symm hj)]

def wAudit9 : Audit :=
  { id := 1, siteName := "site", status := .draft, createdAt := 0,
    updatedAt := 0, checklist := none, responses := [], syncResult := none,
    syncedAt := none, driveResources := none }

def wStore9 : Store := { audits := [wAudit9], photos := [] }

/-- Witness for C9 at a concrete one-audit store. -/
theorem updateAudit_notfound_atomic_witness :
    getAudit wStore9 1 = some wAudit9 ∧
    ∃ st2, updateAudit wStore9 1 { status := some .completed } 5 =
        .ok (st2, applyAuditUpdate wAudit9 { status := some .completed } 5) ∧
      (applyAuditUpdate wAudit9 { status := some .completed } 5).updatedAt = 5 ∧
      getAudit st2 1 = some (applyAuditUpdate wAudit9 { status := some .completed } 5) ∧
      ∀ j, j ≠ 1 → getAudit st2 j = getAudit wStore9 j :=
  ⟨rfl, (updateAudit_notfound_atomic wStore9 1 { status := some .completed } 5).2
    wAudit9 rfl⟩

-- ======================= Claim C3 =======================

def cAudit3 : Audit :=
  { id := 1, siteName := "site", status := .completed, createdAt := 0,
    updatedAt := 0, checklist := none, responses := [], syncResult := none,
    syncedAt := none, driveResources := none }

def cStore3 : Store := { audits := [cAudit3], photos := [] }

/-- C3 counterexample: updateItemResponse applied to an audit whose status is
completed moves it back to in_progress — db.js line 138 passes
status: in_progress unconditionally — so the claimed monotonicity fails. -/
theorem updateItemResponse_demotes_completed :
    (getAudit cStore3 1).map Audit.status = some .completed ∧
    (getAudit (applyOp cStore3 0 (.respondOp 1 "2.1" 0 "")) 1).map Audit.status =
      some .in_progress ∧
    statusRank .in_progress < statusRank .completed := by
  refine ⟨rfl, ?_, by decide⟩
  rfl

theorem getAudit_append_of_some (st : Store) (x : Audit) (i : Nat) (a : Audit)
    (h : getAudit st i = some a) :
    getAudit { st with audits := st.audits ++ [x] } i = some a := by
  unfold getAudit at h ⊢
  rw [List.find?_append, h]
  rfl

theorem statusRank_le_synced (s : AuditStatus) : statusRank s ≤ statusRank .synced := by
  cases s <;> decide

/-- One forward operation keeps every audit present and never lowers its
status rank. -/
theorem applyOp_status_step (st : Store) (clock : Nat) (op : StoreOp)
    (hfwd : opForward st op) (i : Nat) (a : Audit)
    (h1 : getAudit st i = some a) :
    ∃ a2, getAudit (applyOp st clock op) i = some a2 ∧
      statusRank a.status ≤ statusRank a2.status := by
  cases op with
  | createOp nid s c =>
      simp only [applyOp, createAudit]
      by_cases hany : st.audits.any (fun x => x.id == nid) = true
      · simp only [hany, if_true]
        exact ⟨a, h1, le_refl _⟩
      · simp only [Bool.not_eq_true] at hany
        simp only [hany, Bool.false_eq_true, if_false]
        exact ⟨a, getAudit_append_of_some st _ i a h1, le_refl _⟩
  | updateOp j u =>
      simp only [applyOp]
      cases hg : getAudit st j with
      | none => simp only [updateAudit, hg]; exact ⟨a, h1, le_refl _⟩
      | some b =>
          rw [updateAudit_ok st j u clock b hg]
          by_cases hij : j = i
          · subst hij
            have hab : b = a := by rw [hg] at h1; exact Option.some.inj h1
            subst hab
            refine ⟨applyAuditUpdate b u clock, ?_, ?_⟩
            · rw [getAudit_putAudit]
              simp [applyAuditUpdate_id, getAudit_id st j b hg]
            · cases hu : u.status with
              | none => simp [applyAuditUpdate, hu]
              | some s2 =>
                  have := hfwd b hg s2 hu
                  simpa [applyAuditUpdate, hu] using this
          · refine ⟨a, ?_, le_refl _⟩
            rw [getAudit_putAudit]
            have : (applyAuditUpdate b u clock).id = j := by
              rw [applyAuditUpdate_id]; exact getAudit_id st j b hg
            simp [this, hij, h1]
  | respondOp j k v rem =>
      simp only [applyOp, updateItemResponse]
      cases hg : getAudit st j with
      | none => simp only [hg]; exact ⟨a, h1, le_refl _⟩
      | some b =>
          simp only [hg]
          rw [updateAudit_ok st j _ clock b hg]
          by_cases hij : j = i
          · subst hij
            have hab : b = a := by rw [hg] at h1; exact Option.some.inj h1
            subst hab
            refine ⟨applyAuditUpdate b
              { responses := some (setResponse b.responses k
                  { response := v, remarks := rem, updatedAt := clock }),
                status := some .in_progress } clock, ?_, ?_⟩
            · rw [getAudit_putAudit]
              simp [applyAuditUpdate_id, getAudit_id st j b hg]
            · have := hfwd b hg
              simpa [applyAuditUpdate, statusRank] using this
          · refine ⟨a, ?_, le_refl _⟩
            rw [getAudit_putAudit]
            have : (applyAuditUpdate b
                { responses := some (setResponse b.responses k
                    { response := v, remarks := rem, updatedAt := clock }),
                  status := some .in_progress } clock).id = j := by
              rw [applyAuditUpdate_id]; exact getAudit_id st j b hg
            simp [this, hij, h1]
  | syncOp j r =>
      simp only [applyOp, markAuditSynced]
      cases hg : getAudit st j with
      | none => simp only [updateAudit, hg]; exact ⟨a, h1, le_refl _⟩
      | some b =>
          rw [updateAudit_ok st j _ clock b hg]
          by_cases hij : j = i
          · subst hij
            refine ⟨applyAuditUpdate b
              { status := some .synced, syncedAt := some (some clock),
                syncResult := some (some r) } clock, ?_, ?_⟩
            · rw [getAudit_putAudit]
              simp [applyAuditUpdate_id, getAudit_id st j b hg]
            · simpa [applyAuditUpdate] using statusRank_le_synced a.status
          · refine ⟨a, ?_, le_refl _⟩
            rw [getAudit_putAudit]
            have : (applyAuditUpdate b
                { status := some .synced, syncedAt := some (some clock),
                  syncResult := some (some r) } clock).id = j := by
              rw [applyAuditUpdate_id]; exact getAudit_id st j b hg
            simp [this, hij, h1]

/-- C3 amended: across any sequence of createAudit / updateAudit /
updateItemResponse / markAuditSynced, an audit's status only moves forward
along draft → in_progress → completed → synced, PROVIDED updateAudit is never
passed a status of lower rank and updateItemResponse is only applied to
audits still in draft or in_progress. Without that proviso the claim is
false: updateItemResponse unconditionally resets a completed or synced audit
to in_progress (see the counterexample). -/
theorem audit_status_monotone_guarded (ops : List StoreOp) :
    ∀ (st : Store) (clock : Nat), opsForward st clock ops →
    ∀ i a a2, getAudit st i = some a →
      getAudit (applyOps st clock ops) i = some a2 →
      statusRank a.status ≤ statusRank a2.status := by
  induction ops with
  | nil =>
      intro st clock _ i a a2 h1 h2
      unfold applyOps at h2
      rw [h1] at h2
      cases Option.some.inj h2
      exact le_refl _
  | cons op rest ih =>
      intro st clock hfwd i a a2 h1 h2
      obtain ⟨hop, hrest⟩ := hfwd
      obtain ⟨amid, hmid, hle⟩ := applyOp_status_step st clock op hop i a h1
      have h2' : getAudit (applyOps (applyOp st clock op) (clock + 1) rest) i = some a2 := h2
      exact le_trans hle (ih (applyOp st clock op) (clock + 1) hrest i amid a2 hmid h2')

/-- Witness for C3's amended theorem: a draft audit marked in progress and
then synced moves forward. -/
theorem audit_status_monotone_guarded_witness :
    opsForward wStore9 0 [.respondOp 1 "2.1" 0 "", .syncOp 1 9] ∧
    getAudit wStore9 1 = some wAudit9 ∧
    ∃ a2, getAudit (applyOps wStore9 0 [.respondOp 1 "2.1" 0 "", .syncOp 1 9]) 1 =
        some a2 ∧ statusRank wAudit9.status ≤ statusRank a2.status := by
  have hf : opsForward wStore9 0 [.respondOp 1 "2.1" 0 "", .syncOp 1 9] := by
    refine ⟨?_, trivial, trivial⟩
    intro a ha
    cases Option.some.inj ha
    decide
  refine ⟨hf, rfl, ?_⟩
  have h2 : ∀ a2, getAudit (applyOps wStore9 0 [.respondOp 1 "2.1" 0 "", .syncOp 1 9]) 1 =
      some a2 → statusRank wAudit9.status ≤ statusRank a2.status :=
    fun a2 h => audit_status_monotone_guarded _ wStore9 0 hf 1 wAudit9 a2 rfl h
  exact ⟨_, rfl, h2 _ rfl⟩

-- ======================= Claim C10 =======================

/-- C10: an invocation of syncPendingAudits entered with the guard clear
leaves isSyncing false on every exit path — offline return, empty batch,
normal completion, and an escaping store exception alike (the reset sits in a
finally block) — and likewise the part_008 processQueue leaves isUploading
false on every exit path when entered with the guard clear, including when a
store exception escapes its loop; so a failed batch never blocks a later one. -/
theorem guards_released_on_exit :
    (∀ (online : Bool) (st : Store) (fetchOk : Except String Unit)
        (envs : List (List AttemptEnv)) (clock : Nat),
      (syncPendingAudits false online st fetchOk envs clock).isSyncing = false) ∧
    (∀ (q : List UploadTask) (st : Store) (net : List UploadCall) (clock : Nat),
      (processQueue false q st net clock).isUploading = false) := by
  constructor
  · intro online st fetchOk envs clock
    unfold syncPendingAudits
    rw [if_neg (by simp)]
    cases online with
    | false => rw [if_pos (by simp)]
    | true =>
        rw [if_neg (by simp)]
        cases fetchOk with
        | error e => rfl
        | ok u =>
            dsimp only
            split <;> rfl
  · intro q st net clock
    unfold processQueue
    rw [if_neg (by simp)]
    split
    · rfl
    · dsimp only
      split <;> rfl

-- ======================= Claim C5 =======================

/-- Safety invariant of the two-invocation system: a mid-batch invocation
holds the guard, and at most one invocation is mid-batch. -/
def SysInv (s : SyncSys) : Prop :=
  (inBatch s.pcA = true → s.flag = true) ∧
  (inBatch s.pcB = true → s.flag = true) ∧
  ¬(inBatch s.pcA = true ∧ inBatch s.pcB = true)

theorem stepThread_ready_busy (res : Nat → Bool) (flag online : Bool)
    (pending : List Nat) (hf : flag = true) :
    stepThread res flag online pending .ready = (.finished 0 0 false, flag, []) := by
  simp [stepThread, hf]

theorem stepThread_ready_offline (res : Nat → Bool) (flag online : Bool)
    (pending : List Nat) (hf : flag = false) (hon : online = false) :
    stepThread res flag online pending .ready = (.finished 0 0 true, flag, []) := by
  simp [stepThread, hf, hon]

theorem stepThread_ready_enter (res : Nat → Bool) (flag online : Bool)
    (pending : List Nat) (hf : flag = false) (hon : online = true) :
    stepThread res flag online pending .ready = (.running pending 0 0, true, []) := by
  simp [stepThread, hf, hon]

theorem sysStep_inv (res : Nat → Bool) (s : SyncSys) (t : Tid)
    (h : SysInv s) : SysInv (sysStep res s t).1 := by
  obtain ⟨h1, h2, h3⟩ := h
  cases t with
  | A =>
      cases hA : s.pcA with
      | ready =>
          by_cases hf : s.flag = true
          · simp only [sysStep, hA, stepThread_ready_busy res s.flag s.online s.pending hf]
            exact ⟨by simp [inBatch], fun hb => h2 hb, by simp [inBatch]⟩
          · have hf2 : s.flag = false := by revert hf; cases s.flag <;> simp
            cases hon : s.online with
            | false =>
                simp only [sysStep, hA,
                  stepThread_ready_offline res s.flag s.online s.pending hf2 hon]
                exact ⟨by simp [inBatch], fun hb => h2 hb, by simp [inBatch]⟩
            | true =>
                simp only [sysStep, hA,
                  stepThread_ready_enter res s.flag s.online s.pending hf2 hon]
                refine ⟨fun _ => rfl, fun _ => rfl, ?_⟩
                intro hcon
                exact hf (h2 hcon.2)
      | running remaining okc failc =>
          have hAin : inBatch s.pcA = true := by rw [hA]; rfl
          have hBnot : ¬inBatch s.pcB = true := fun hb => h3 ⟨hAin, hb⟩
          cases remaining with
          | nil =>
              simp only [sysStep, hA, stepThread]
              exact ⟨by simp [inBatch], fun hb => absurd hb hBnot,
                by simp [inBatch]⟩
          | cons x rest =>
              simp only [sysStep, hA, stepThread]
              refine ⟨fun _ => h1 hAin, fun hb => absurd hb hBnot, ?_⟩
              intro hcon
              exact hBnot hcon.2
      | finished okc failc off =>
          simp only [sysStep, hA, stepThread]
          exact ⟨by simp [inBatch], fun hb => h2 hb, by simp [inBatch]⟩
  | B =>
      cases hB : s.pcB with
      | ready =>
          by_cases hf : s.flag = true
          · simp only [sysStep, hB, stepThread_ready_busy res s.flag s.online s.pending hf]
            exact ⟨fun ha => h1 ha, by simp [inBatch], by simp [inBatch]⟩
          · have hf2 : s.flag = false := by revert hf; cases s.flag <;> simp
            cases hon : s.online with
            | false =>
                simp only [sysStep, hB,
                  stepThread_ready_offline res s.flag s.online s.pending hf2 hon]
                exact ⟨fun ha => h1 ha, by simp [inBatch], by simp [inBatch]⟩
            | true =>
                simp only [sysStep, hB,
                  stepThread_ready_enter res s.flag s.online s.pending hf2 hon]
                refine ⟨fun _ => rfl, fun _ => rfl, ?_⟩
                intro hcon
                exact hf (h1 hcon.1)
      | running remaining okc failc =>
          have hBin : inBatch s.pcB = true := by rw [hB]; rfl
          have hAnot : ¬inBatch s.pcA = true := fun ha => h3 ⟨ha, hBin⟩
          cases remaining with
          | nil =>
              simp only [sysStep, hB, stepThread]
              exact ⟨fun ha => absurd ha hAnot, by simp [inBatch],
                by simp [inBatch]⟩
          | cons x rest =>
              simp only [sysStep, hB, stepThread]
              refine ⟨fun ha => absurd ha hAnot, fun _ => h2 hBin, ?_⟩
              intro hcon
              exact hAnot hcon.1
      | finished okc failc off =>
          simp only [sysStep, hB, stepThread]
          exact ⟨fun ha => h1 ha, by simp [inBatch], by simp [inBatch]⟩

theorem sysRun_inv (res : Nat → Bool) (sched : List Tid) (s : SyncSys)
    (h : SysInv s) : SysInv (sysRun res sched s).1 := by
  induction sched generalizing s with
  | nil => exact h
  | cons t ts ih => exact ih (sysStep res s t).1 (sysStep_inv res s t h)

theorem initSys_inv (pending : List Nat) : SysInv (initSys pending) :=
  ⟨by simp [initSys, inBatch], by simp [initSys, inBatch],
   by simp [initSys, inBatch]⟩

/-- C5: in every interleaving of two syncPendingAudits invocations, at most
one is ever mid-batch, and an invocation whose guard check runs while the
other is mid-batch performs no submissions and returns at once with
synced = 0, failed = 0. -/
theorem sync_no_double_submit (res : Nat → Bool) (pending : List Nat)
    (sched : List Tid) :
    ¬(inBatch (sysRun res sched (initSys pending)).1.pcA = true ∧
      inBatch (sysRun res sched (initSys pending)).1.pcB = true) ∧
    (inBatch (sysRun res sched (initSys pending)).1.pcA = true →
      (sysRun res sched (initSys pending)).1.pcB = .ready →
      (sysStep res (sysRun res sched (initSys pending)).1 .B).1.pcB =
          .finished 0 0 false ∧
      (sysStep res (sysRun res sched (initSys pending)).1 .B).2 = []) := by
  have hinv : SysInv (sysRun res sched (initSys pending)).1 :=
    sysRun_inv res sched (initSys pending) (initSys_inv pending)
  refine ⟨hinv.2.2, ?_⟩
  intro hA hB
  have hf : (sysRun res sched (initSys pending)).1.flag = true := hinv.1 hA
  constructor
  · simp only [sysStep, hB, stepThread, hf, if_true]
  · simp only [sysStep, hB, stepThread, hf, if_true]
    rfl

/-- Witness for C5: after one step of invocation A (which enters the batch),
invocation B is blocked by the guard. -/
theorem sync_no_double_submit_witness :
    inBatch (sysRun (fun _ => true) [Tid.A] (initSys [5])).1.pcA = true ∧
    (sysRun (fun _ => true) [Tid.A] (initSys [5])).1.pcB = .ready ∧
    ((sysStep (fun _ => true) (sysRun (fun _ => true) [Tid.A] (initSys [5])).1
        .B).1.pcB = .finished 0 0 false ∧
     (sysStep (fun _ => true) (sysRun (fun _ => true) [Tid.A] (initSys [5])).1
        .B).2 = []) :=
  ⟨rfl, rfl,
   (sync_no_double_submit (fun _ => true) [5] [Tid.A]).2 rfl rfl⟩

-- ======================= Claim C1 =======================

/-- Every photo present in the first store is present in the second with the
same blob. -/
def blobsPreserved (st st2 : Store) : Prop :=
  ∀ pid p, getPhoto st pid = some p →
    ∃ p2, getPhoto st2 pid = some p2 ∧ p2.blob = p.blob

theorem blobsPreserved_refl (st : Store) : blobsPreserved st st :=
  fun _ p h => ⟨p, h, rfl⟩

theorem blobsPreserved_trans {s1 s2 s3 : Store} (h1 : blobsPreserved s1 s2)
    (h2 : blobsPreserved s2 s3) : blobsPreserved s1 s3 := by
  intro pid p h
  obtain ⟨q, hq, hbq⟩ := h1 pid p h
  obtain ⟨r, hr, hbr⟩ := h2 pid q hq
  exact ⟨r, hr, hbr.trans hbq⟩

theorem updatePhotoStatus_blobsPreserved (st : Store) (pid : Nat)
    (s : PhotoStatus) (m : PhotoPatch) (clock : Nat) (st2 : Store) (p2 : Photo)
    (h : updatePhotoStatus st pid s m clock = .ok (st2, p2)) :
    blobsPreserved st st2 := by
  unfold updatePhotoStatus at h
  cases hg : getPhoto st pid with
  | none => rw [hg] at h; exact absurd h (by simp)
  | some p =>
      rw [hg] at h
      have hst2 : st2 = putPhoto st (applyPhotoPatch p s m clock) :=
        (congrArg Prod.fst (Except.ok.inj h)).symm
      subst hst2
      intro q pq hq
      rw [getPhoto_putPhoto]
      have hid : (applyPhotoPatch p s m clock).id = pid := by
        rw [applyPhotoPatch_id]; exact getPhoto_id st pid p hg
      by_cases hqe : pid = q
      · subst hqe
        have hpq : pq = p := by rw [hq] at hg; exact Option.some.inj hg
        subst hpq
        rw [if_pos hid]
        exact ⟨_, rfl, applyPhotoPatch_blob pq s m clock⟩
      · rw [if_neg (by rw [hid]; exact hqe)]
        exact ⟨pq, hq, rfl⟩

theorem updatePhotoStatus_audits (st : Store) (pid : Nat) (s : PhotoStatus)
    (m : PhotoPatch) (clock : Nat) (st2 : Store) (p2 : Photo)
    (h : updatePhotoStatus st pid s m clock = .ok (st2, p2)) :
    st2.audits = st.audits := by
  unfold updatePhotoStatus at h
  cases hg : getPhoto st pid with
  | none => rw [hg] at h; exact absurd h (by simp)
  | some p =>
      rw [hg] at h
      have hst2 : st2 = putPhoto st (applyPhotoPatch p s m clock) :=
        (congrArg Prod.fst (Except.ok.inj h)).symm
      rw [hst2, putPhoto_audits]

/-- The store carried by a step outcome. -/
def stepStore : StepOut → Store
  | .cont _ st _ _ _ => st
  | .escape _ st _ => st

theorem processQueueStep_blobsPreserved (t : UploadTask)
    (rest : List UploadTask) (st : Store) (net : List UploadCall)
    (clock : Nat) :
    blobsPreserved st (stepStore (processQueueStep t rest st net clock)) ∧
    (stepStore (processQueueStep t rest st net clock)).audits = st.audits := by
  unfold processQueueStep
  dsimp only
  split
  · -- first updatePhotoStatus threw: catch path from st
    split
    · split
      · exact ⟨blobsPreserved_refl st, rfl⟩
      · next st3 p3 heq =>
          exact ⟨updatePhotoStatus_blobsPreserved _ _ _ _ _ _ _ heq,
            updatePhotoStatus_audits _ _ _ _ _ _ _ heq⟩
    · split
      · exact ⟨blobsPreserved_refl st, rfl⟩
      · next st3 p3 heq =>
          exact ⟨updatePhotoStatus_blobsPreserved _ _ _ _ _ _ _ heq,
            updatePhotoStatus_audits _ _ _ _ _ _ _ heq⟩
  · next st1 p1 heq1 =>
      have hb1 := updatePhotoStatus_blobsPreserved _ _ _ _ _ _ _ heq1
      have ha1 := updatePhotoStatus_audits _ _ _ _ _ _ _ heq1
      split
      · -- upload failed: catch path from st1
        split
        · split
          · exact ⟨hb1, ha1⟩
          · next st3 p3 heq3 =>
              exact ⟨blobsPreserved_trans hb1
                  (updatePhotoStatus_blobsPreserved _ _ _ _ _ _ _ heq3),
                (updatePhotoStatus_audits _ _ _ _ _ _ _ heq3).trans ha1⟩
        · split
          · exact ⟨hb1, ha1⟩
          · next st3 p3 heq3 =>
              exact ⟨blobsPreserved_trans hb1
                  (updatePhotoStatus_blobsPreserved _ _ _ _ _ _ _ heq3),
                (updatePhotoStatus_audits _ _ _ _ _ _ _ heq3).trans ha1⟩
      · -- upload succeeded
        split
        · -- second updatePhotoStatus threw: catch path from st1
          split
          · split
            · exact ⟨hb1, ha1⟩
            · next st3 p3 heq3 =>
                exact ⟨blobsPreserved_trans hb1
                    (updatePhotoStatus_blobsPreserved _ _ _ _ _ _ _ heq3),
                  (updatePhotoStatus_audits _ _ _ _ _ _ _ heq3).trans ha1⟩
          · split
            · exact ⟨hb1, ha1⟩
            · next st3 p3 heq3 =>
                exact ⟨blobsPreserved_trans hb1
                    (updatePhotoStatus_blobsPreserved _ _ _ _ _ _ _ heq3),
                  (updatePhotoStatus_audits _ _ _ _ _ _ _ heq3).trans ha1⟩
        · next st2 p2 heq2 =>
            exact ⟨blobsPreserved_trans hb1
                (updatePhotoStatus_blobsPreserved _ _ _ _ _ _ _ heq2),
              (updatePhotoStatus_audits _ _ _ _ _ _ _ heq2).trans ha1⟩

theorem processQueueGo_blobsPreserved (fuel : Nat) :
    ∀ (q : List UploadTask) (st : Store) (net : List UploadCall) (clock : Nat),
      blobsPreserved st (processQueueGo fuel q st net clock).store ∧
      (processQueueGo fuel q st net clock).store.audits = st.audits := by
  induction fuel with
  | zero => intro q st net clock; exact ⟨blobsPreserved_refl st, rfl⟩
  | succ n ih =>
      intro q st net clock
      cases q with
      | nil => exact ⟨blobsPreserved_refl st, rfl⟩
      | cons t rest =>
          have hstep := processQueueStep_blobsPreserved t rest st net clock
          unfold processQueueGo
          cases hs : processQueueStep t rest st net clock with
          | cont q2 st2 ev net2 clock2 =>
              rw [hs] at hstep
              have hrec := ih q2 st2 net2 clock2
              exact ⟨blobsPreserved_trans hstep.1 hrec.1,
                hrec.2.trans hstep.2⟩
          | escape e st2 ev =>
              rw [hs] at hstep
              exact hstep

/-- C1 amended: the current Upload Queue worker (src/unnamed/part_008) never
clears any photo's blob and never touches the audits store: after any
processQueue run every stored photo still has its original blob, so a photo
it uploads while the owning audit is not yet synced keeps its blob; in
particular a successful upload of the head task records the Drive reference,
sets status uploaded and retains the blob. (The superseded worker in
src/lib/backgroundUpload.js instead deletes the blob right after a successful
upload — see the counterexample.) -/
theorem upload_worker_retains_blob :
    (∀ (isUploading : Bool) (q : List UploadTask) (st : Store)
        (net : List UploadCall) (clock : Nat) (pid : Nat) (p : Photo),
      getPhoto st pid = some p →
      ∃ p2, getPhoto (processQueue isUploading q st net clock).store pid =
          some p2 ∧ p2.blob = p.blob ∧
        (processQueue isUploading q st net clock).store.audits = st.audits) ∧
    (∀ (t : UploadTask) (rest : List UploadTask) (st : Store)
        (net : List UploadCall) (clock : Nat) (p0 : Photo) (r : UploadResult),
      getPhoto st t.photo.id = some p0 →
      uploadPhotoToDrive t.photo (net.headD noOracle) = .ok r →
      ∃ st2 p2,
        processQueueStep t rest st net clock = .cont rest st2
          [.uploadingEv t.photo.id (rest.length + 1) t.retryCount,
           .uploadedEv t.photo.id r.fileId rest.length,
           .resolvedEv t.photo.id r.fileId] net.tail (clock + 1) ∧
        getPhoto st2 t.photo.id = some p2 ∧
        p2.status = .uploaded ∧ p2.blob = p0.blob ∧
        p2.driveFileId = some r.fileId ∧ st2.audits = st.audits) := by
  constructor
  · intro isUploading q st net clock pid p hp
    unfold processQueue
    by_cases hu : isUploading = true
    · rw [if_pos hu]
      exact ⟨p, hp, rfl, rfl⟩
    · rw [if_neg hu]
      by_cases hq : q.isEmpty = true
      · rw [if_pos hq]
        exact ⟨p, hp, rfl, rfl⟩
      · rw [if_neg hq]
        have hgo := processQueueGo_blobsPreserved (queueFuel q) q st net clock
        obtain ⟨p2, hp2, hb2⟩ := hgo.1 pid p hp
        cases ho : (processQueueGo (queueFuel q) q st net clock).outcome with
        | ok u =>
            dsimp only
            rw [ho]
            exact ⟨p2, hp2, hb2, hgo.2⟩
        | error e =>
            dsimp only
            rw [ho]
            exact ⟨p2, hp2, hb2, hgo.2⟩
  · intro t rest st net clock p0 r h0 hup
    have hid0 : p0.id = t.photo.id := getPhoto_id st t.photo.id p0 h0
    unfold processQueueStep
    rw [updatePhotoStatus_ok st t.photo.id .uploading
        { retryCount := some t.retryCount } clock p0 h0]
    dsimp only
    rw [hup]
    dsimp only
    have h1 : getPhoto (putPhoto st (applyPhotoPatch p0 .uploading
        { retryCount := some t.retryCount } clock)) t.photo.id =
        some (applyPhotoPatch p0 .uploading { retryCount := some t.retryCount } clock) := by
      rw [getPhoto_putPhoto, if_pos (by rw [applyPhotoPatch_id]; exact hid0)]
    rw [updatePhotoStatus_ok _ t.photo.id .uploaded
        { driveFileId := some r.fileId, driveLink := some r.webViewLink,
          uploadedAt := some clock, retryCount := some t.retryCount } clock _ h1]
    refine ⟨_, applyPhotoPatch (applyPhotoPatch p0 .uploading
        { retryCount := some t.retryCount } clock) .uploaded
        { driveFileId := some r.fileId, driveLink := some r.webViewLink,
          uploadedAt := some clock, retryCount := some t.retryCount } clock,
      rfl, ?_, rfl, rfl, rfl, ?_⟩
    · rw [getPhoto_putPhoto, if_pos (by rw [applyPhotoPatch_id, applyPhotoPatch_id]; exact hid0)]
    · rw [putPhoto_audits, putPhoto_audits]

def wPhoto1 : Photo :=
  { id := 2, auditId := 1, itemId := "2.1", blob := some 7, base64 := none,
    filename := "p.jpg", status := .pending_upload, driveFileId := none,
    driveLink := none, uploadedAt := none, retryCount := 0, lastError := none,
    errorMsg := none, lastAttempt := none, blobDeleted := false,
    blobDeletedAt := none, createdAt := 0, updatedAt := none }

def wAudit1 : Audit :=
  { id := 1, siteName := "site", status := .completed, createdAt := 0,
    updatedAt := 0, checklist := none, responses := [], syncResult := none,
    syncedAt := none, driveResources := none }

def wStore1 : Store := { audits := [wAudit1], photos := [wPhoto1] }

def wTask1 : UploadTask :=
  { photo := wPhoto1, auditId := 1, driveResources := none, retryCount := 0 }

def wNet1 : List UploadCall :=
  [{ token := .ok (), transfer := .ok { fileId := "f1", webViewLink := "l1" } }]

/-- Witness for C1's amended theorem: a concrete successful upload of a
pending photo whose audit is completed (not synced) keeps the blob. -/
theorem upload_worker_retains_blob_witness :
    (getPhoto wStore1 2 = some wPhoto1 ∧
      ∃ p2, getPhoto (processQueue false [wTask1] wStore1 wNet1 0).store 2 =
          some p2 ∧ p2.blob = wPhoto1.blob ∧
        (processQueue false [wTask1] wStore1 wNet1 0).store.audits =
          wStore1.audits) ∧
    (getPhoto wStore1 wTask1.photo.id = some wPhoto1 ∧
      uploadPhotoToDrive wTask1.photo (wNet1.headD noOracle) =
        .ok { fileId := "f1", webViewLink := "l1" } ∧
      ∃ st2 p2,
        processQueueStep wTask1 [] wStore1 wNet1 0 = .cont [] st2
          [.uploadingEv wTask1.photo.id 1 0,
           .uploadedEv wTask1.photo.id "f1" 0,
           .resolvedEv wTask1.photo.id "f1"] wNet1.tail 1 ∧
        getPhoto st2 wTask1.photo.id = some p2 ∧
        p2.status = .uploaded ∧ p2.blob = wPhoto1.blob ∧
        p2.driveFileId = some "f1" ∧ st2.audits = wStore1.audits) :=
  ⟨⟨rfl, upload_worker_retains_blob.1 false [wTask1] wStore1 wNet1 0 2 wPhoto1 rfl⟩,
   ⟨rfl, rfl, upload_worker_retains_blob.2 wTask1 [] wStore1 wNet1 0 wPhoto1
      { fileId := "f1", webViewLink := "l1" } rfl rfl⟩⟩

/-- C1 counterexample: the legacy worker of src/lib/backgroundUpload.js, on a
successful upload of a photo whose owning audit is completed but not synced,
marks the photo uploaded, resolves its promise, and immediately clears its
blob (deletePhotoBlob at line 122) — refuting, for that worker, the claim
that the blob is still present in the store. -/
theorem legacy_worker_clears_blob_before_sync :
    (getAudit (processQueueLegacy false [wTask1] wStore1 wNet1 0).store 1).map
        Audit.status = some .completed ∧
    (getPhoto (processQueueLegacy false [wTask1] wStore1 wNet1 0).store 2).map
        Photo.status = some .uploaded ∧
    (getPhoto (processQueueLegacy false [wTask1] wStore1 wNet1 0).store 2).map
        Photo.blob = some none ∧
    (processQueueLegacy false [wTask1] wStore1 wNet1 0).events =
      [.uploadingEv 2 1 0, .uploadedEv 2 "f1" 0, .resolvedEv 2 "f1",
       .completeEv] := by
  refine ⟨rfl, rfl, rfl, rfl⟩

-- ======================= Claim C2 =======================

theorem processQueueStep_fail_requeue (t : UploadTask) (rest : List UploadTask)
    (st : Store) (net : List UploadCall) (clock : Nat) (p0 : Photo) (e : String)
    (hrc : t.retryCount < MAX_RETRIES - 1)
    (h0 : getPhoto st t.photo.id = some p0)
    (hup : uploadPhotoToDrive t.photo (net.headD noOracle) = .error e) :
    processQueueStep t rest st net clock =
      .cont (rest ++ [{ t with retryCount := t.retryCount + 1 }])
        (putPhoto
          (putPhoto st (applyPhotoPatch p0 .uploading
            { retryCount := some t.retryCount } clock))
          (applyPhotoPatch
            (applyPhotoPatch p0 .uploading { retryCount := some t.retryCount } clock)
            .pending_upload
            { retryCount := some (t.retryCount + 1), lastError := some e,
              lastAttempt := some clock } clock))
        [.uploadingEv t.photo.id (rest.length + 1) t.retryCount,
         .retryingEv t.photo.id (t.retryCount + 1)
           (rest ++ [{ t with retryCount := t.retryCount + 1 }]).length,
         .waitedEv RETRY_DELAY_MS]
        net.tail (clock + 1) := by
  have hid0 : p0.id = t.photo.id := getPhoto_id _ _ _ h0
  unfold processQueueStep
  rw [updatePhotoStatus_ok st t.photo.id .uploading
      { retryCount := some t.retryCount } clock p0 h0]
  dsimp only
  rw [hup]
  dsimp only
  rw [if_pos hrc]
  have h1 : getPhoto (putPhoto st (applyPhotoPatch p0 .uploading
      { retryCount := some t.retryCount } clock)) t.photo.id =
      some (applyPhotoPatch p0 .uploading { retryCount := some t.retryCount } clock) := by
    rw [getPhoto_putPhoto, if_pos (by rw [applyPhotoPatch_id]; exact hid0)]
  rw [updatePhotoStatus_ok _ t.photo.id .pending_upload
      { retryCount := some (t.retryCount + 1), lastError := some e,
        lastAttempt := some clock } clock _ h1]
  rfl

theorem processQueueStep_fail_final (t : UploadTask) (rest : List UploadTask)
    (st : Store) (net : List UploadCall) (clock : Nat) (p0 : Photo) (e : String)
    (hrc : ¬(t.retryCount < MAX_RETRIES - 1))
    (h0 : getPhoto st t.photo.id = some p0)
    (hup : uploadPhotoToDrive t.photo (net.headD noOracle) = .error e) :
    processQueueStep t rest st net clock =
      .cont rest
        (putPhoto
          (putPhoto st (applyPhotoPatch p0 .uploading
            { retryCount := some t.retryCount } clock))
          (applyPhotoPatch
            (applyPhotoPatch p0 .uploading { retryCount := some t.retryCount } clock)
            .failed
            { errorMsg := some e, lastAttempt := some clock,
              retryCount := some (t.retryCount + 1) } clock))
        [.uploadingEv t.photo.id (rest.length + 1) t.retryCount,
         .failedEv t.photo.id e rest.length,
         .rejectedEv t.photo.id e]
        net.tail (clock + 1) := by
  have hid0 : p0.id = t.photo.id := getPhoto_id _ _ _ h0
  unfold processQueueStep
  rw [updatePhotoStatus_ok st t.photo.id .uploading
      { retryCount := some t.retryCount } clock p0 h0]
  dsimp only
  rw [hup]
  dsimp only
  rw [if_neg hrc]
  have h1 : getPhoto (putPhoto st (applyPhotoPatch p0 .uploading
      { retryCount := some t.retryCount } clock)) t.photo.id =
      some (applyPhotoPatch p0 .uploading { retryCount := some t.retryCount } clock) := by
    rw [getPhoto_putPhoto, if_pos (by rw [applyPhotoPatch_id]; exact hid0)]
  rw [updatePhotoStatus_ok _ t.photo.id .failed
      { errorMsg := some e, lastAttempt := some clock,
        retryCount := some (t.retryCount + 1) } clock _ h1]
  rfl

theorem processQueueStep_success (t : UploadTask) (rest : List UploadTask)
    (st : Store) (net : List UploadCall) (clock : Nat) (p0 : Photo)
    (r : UploadResult)
    (h0 : getPhoto st t.photo.id = some p0)
    (hup : uploadPhotoToDrive t.photo (net.headD noOracle) = .ok r) :
    processQueueStep t rest st net clock =
      .cont rest
        (putPhoto
          (putPhoto st (applyPhotoPatch p0 .uploading
            { retryCount := some t.retryCount } clock))
          (applyPhotoPatch
            (applyPhotoPatch p0 .uploading { retryCount := some t.retryCount } clock)
            .uploaded
            { driveFileId := some r.fileId, driveLink := some r.webViewLink,
              uploadedAt := some clock, retryCount := some t.retryCount } clock))
        [.uploadingEv t.photo.id (rest.length + 1) t.retryCount,
         .uploadedEv t.photo.id r.fileId rest.length,
         .resolvedEv t.photo.id r.fileId]
        net.tail (clock + 1) := by
  have hid0 : p0.id = t.photo.id := getPhoto_id _ _ _ h0
  unfold processQueueStep
  rw [updatePhotoStatus_ok st t.photo.id .uploading
      { retryCount := some t.retryCount } clock p0 h0]
  dsimp only
  rw [hup]
  dsimp only
  have h1 : getPhoto (putPhoto st (applyPhotoPatch p0 .uploading
      { retryCount := some t.retryCount } clock)) t.photo.id =
      some (applyPhotoPatch p0 .uploading { retryCount := some t.retryCount } clock) := by
    rw [getPhoto_putPhoto, if_pos (by rw [applyPhotoPatch_id]; exact hid0)]
  rw [updatePhotoStatus_ok _ t.photo.id .uploaded
      { driveFileId := some r.fileId, driveLink := some r.webViewLink,
        uploadedAt := some clock, retryCount := some t.retryCount } clock _ h1]
  rfl

theorem processQueueGo_cont (fuel : Nat) {t : UploadTask}
    {rest q2 : List UploadTask} {st st2 : Store} {ev : List UploadEv}
    {net net2 : List UploadCall} {clock clock2 : Nat}
    (hs : processQueueStep t rest st net clock = .cont q2 st2 ev net2 clock2) :
    processQueueGo (fuel + 1) (t :: rest) st net clock =
      { processQueueGo fuel q2 st2 net2 clock2 with
        events := ev ++ (processQueueGo fuel q2 st2 net2 clock2).events } := by
  conv_lhs => rw [processQueueGo]
  rw [hs]

theorem processQueueGo_nil (fuel : Nat) (st : Store) (net : List UploadCall)
    (clock : Nat) :
    processQueueGo (fuel + 1) [] st net clock =
      { outcome := .ok (), store := st, events := [], net := net } := rfl

theorem queueRun_ev (ev : List UploadEv) {r1 r2 : QueueRun} (h : r1 = r2) :
    ({ r1 with events := ev ++ r1.events } : QueueRun) =
      { r2 with events := ev ++ r2.events } := by
  rw [h]

/-- C2: bounded upload retry in the part_008 worker. First, whenever the head
task's upload attempt fails with retries left, the worker re-inserts the task
at the tail with retryCount+1, resets the photo to pending_upload with
lastError recorded, and waits the fixed RETRY_DELAY_MS = 2000 ms. Second, a
photo enqueued (retryCount 0) whose three upload attempts all fail produces
exactly the trace uploading/retry/wait, uploading/retry/wait, uploading/
failed/rejected — three attempts, never more, never fewer — ending with the
photo's status failed, its error recorded, retryCount 3, and the promise
rejected with the final error. -/
theorem upload_retry_bounded :
    (∀ (t : UploadTask) (rest : List UploadTask) (st : Store)
        (net : List UploadCall) (clock : Nat) (p0 : Photo) (e : String),
      t.retryCount < MAX_RETRIES - 1 →
      getPhoto st t.photo.id = some p0 →
      uploadPhotoToDrive t.photo (net.headD noOracle) = .error e →
      ∃ st2 p2,
        processQueueStep t rest st net clock =
          .cont (rest ++ [{ t with retryCount := t.retryCount + 1 }]) st2
            [.uploadingEv t.photo.id (rest.length + 1) t.retryCount,
             .retryingEv t.photo.id (t.retryCount + 1) (rest.length + 1),
             .waitedEv RETRY_DELAY_MS] net.tail (clock + 1) ∧
        getPhoto st2 t.photo.id = some p2 ∧
        p2.status = .pending_upload ∧ p2.lastError = some e ∧
        p2.retryCount = t.retryCount + 1) ∧
    (∀ (ph : Photo) (aid : Nat) (dr : Option DriveResources) (st : Store)
        (c1 c2 c3 : UploadCall) (netrest : List UploadCall) (clock : Nat)
        (p0 : Photo) (e1 e2 e3 : String),
      getPhoto st ph.id = some p0 →
      uploadPhotoToDrive ph c1 = .error e1 →
      uploadPhotoToDrive ph c2 = .error e2 →
      uploadPhotoToDrive ph c3 = .error e3 →
      (processQueue false
          [{ photo := ph, auditId := aid, driveResources := dr, retryCount := 0 }]
          st (c1 :: c2 :: c3 :: netrest) clock).events =
        [.uploadingEv ph.id 1 0, .retryingEv ph.id 1 1, .waitedEv RETRY_DELAY_MS,
         .uploadingEv ph.id 1 1, .retryingEv ph.id 2 1, .waitedEv RETRY_DELAY_MS,
         .uploadingEv ph.id 1 2, .failedEv ph.id e3 0, .rejectedEv ph.id e3,
         .completeEv] ∧
      (processQueue false
          [{ photo := ph, auditId := aid, driveResources := dr, retryCount := 0 }]
          st (c1 :: c2 :: c3 :: netrest) clock).outcome = .ok () ∧
      (processQueue false
          [{ photo := ph, auditId := aid, driveResources := dr, retryCount := 0 }]
          st (c1 :: c2 :: c3 :: netrest) clock).isUploading = false ∧
      ∃ p3,
        getPhoto (processQueue false
          [{ photo := ph, auditId := aid, driveResources := dr, retryCount := 0 }]
          st (c1 :: c2 :: c3 :: netrest) clock).store ph.id = some p3 ∧
        p3.status = .failed ∧ p3.errorMsg = some e3 ∧ p3.retryCount = 3) := by
  constructor
  · intro t rest st net clock p0 e hrc h0 hup
    have hid0 : p0.id = t.photo.id := getPhoto_id _ _ _ h0
    refine ⟨putPhoto
        (putPhoto st
          (applyPhotoPatch p0 .uploading { retryCount := some t.retryCount } clock))
        (applyPhotoPatch
          (applyPhotoPatch p0 .uploading { retryCount := some t.retryCount } clock)
          .pending_upload
          { retryCount := some (t.retryCount + 1), lastError := some e,
            lastAttempt := some clock } clock),
      applyPhotoPatch
        (applyPhotoPatch p0 .uploading { retryCount := some t.retryCount } clock)
        .pending_upload
        { retryCount := some (t.retryCount + 1), lastError := some e,
          lastAttempt := some clock } clock, ?_, ?_, rfl, rfl, rfl⟩
    · rw [processQueueStep_fail_requeue t rest st net clock p0 e hrc h0 hup]
      simp
    · rw [getPhoto_putPhoto,
        if_pos (by rw [applyPhotoPatch_id, applyPhotoPatch_id]; exact hid0)]
  · intro ph aid dr st c1 c2 c3 netrest clock p0 e1 e2 e3 h0 hu1 hu2 hu3
    have hid0 : p0.id = ph.id := getPhoto_id _ _ _ h0
    -- the three loop iterations
    have hs1 := processQueueStep_fail_requeue
      { photo := ph, auditId := aid, driveResources := dr, retryCount := 0 }
      [] st (c1 :: c2 :: c3 :: netrest) clock p0 e1
      (by show (0:Nat) < MAX_RETRIES - 1; decide) h0 hu1
    have h02 : getPhoto
        (putPhoto (putPhoto st
          (applyPhotoPatch p0 .uploading { retryCount := some 0 } clock))
          (applyPhotoPatch
          (applyPhotoPatch p0 .uploading { retryCount := some 0 } clock)
          .pending_upload
          { retryCount := some 1, lastError := some e1, lastAttempt := some clock }
          clock)) ph.id =
        some (applyPhotoPatch
          (applyPhotoPatch p0 .uploading { retryCount := some 0 } clock)
          .pending_upload
          { retryCount := some 1, lastError := some e1, lastAttempt := some clock }
          clock) := by
      rw [getPhoto_putPhoto,
        if_pos (by rw [applyPhotoPatch_id, applyPhotoPatch_id]; exact hid0)]
    have hs2 := processQueueStep_fail_requeue
      { photo := ph, auditId := aid, driveResources := dr, retryCount := 1 }
      []
      (putPhoto (putPhoto st
        (applyPhotoPatch p0 .uploading { retryCount := some 0 } clock))
        (applyPhotoPatch
        (applyPhotoPatch p0 .uploading { retryCount := some 0 } clock)
        .pending_upload
        { retryCount := some 1, lastError := some e1, lastAttempt := some clock }
        clock))
      (c2 :: c3 :: netrest) (clock + 1) _ e2
      (by show (1:Nat) < MAX_RETRIES - 1; decide) h02 hu2
    have h03 : getPhoto
        (putPhoto (putPhoto (putPhoto (putPhoto st
          (applyPhotoPatch p0 .uploading { retryCount := some 0 } clock))
          (applyPhotoPatch
          (applyPhotoPatch p0 .uploading { retryCount := some 0 } clock)
          .pending_upload
          { retryCount := some 1, lastError := some e1, lastAttempt := some clock }
          clock))
          (applyPhotoPatch
          (applyPhotoPatch
          (applyPhotoPatch p0 .uploading { retryCount := some 0 } clock)
          .pending_upload
          { retryCount := some 1, lastError := some e1, lastAttempt := some clock }
          clock)
          .uploading { retryCount := some 1 } (clock + 1)))
          (applyPhotoPatch
          (applyPhotoPatch
          (applyPhotoPatch
          (applyPhotoPatch p0 .uploading { retryCount := some 0 } clock)
          .pending_upload
          { retryCount := some 1, lastError := some e1, lastAttempt := some clock }
          clock)
          .uploading { retryCount := some 1 } (clock + 1))
          .pending_upload
          { retryCount := some 2, lastError := some e2, lastAttempt := some (clock + 1) }
          (clock + 1))) ph.id =
        some (applyPhotoPatch
          (applyPhotoPatch
          (applyPhotoPatch
          (applyPhotoPatch p0 .uploading { retryCount := some 0 } clock)
          .pending_upload
          { retryCount := some 1, lastError := some e1, lastAttempt := some clock }
          clock)
          .uploading { retryCount := some 1 } (clock + 1))
          .pending_upload
          { retryCount := some 2, lastError := some e2, lastAttempt := some (clock + 1) }
          (clock + 1)) := by
      rw [getPhoto_putPhoto, if_pos (by
        rw [applyPhotoPatch_id, applyPhotoPatch_id, applyPhotoPatch_id,
          applyPhotoPatch_id]
        exact hid0)]
    have hs3 := processQueueStep_fail_final
      { photo := ph, auditId := aid, driveResources := dr, retryCount := 2 }
      []
      (putPhoto (putPhoto (putPhoto (putPhoto st
        (applyPhotoPatch p0 .uploading { retryCount := some 0 } clock))
        (applyPhotoPatch
        (applyPhotoPatch p0 .uploading { retryCount := some 0 } clock)
        .pending_upload
        { retryCount := some 1, lastError := some e1, lastAttempt := some clock }
        clock))
        (applyPhotoPatch
        (applyPhotoPatch
        (applyPhotoPatch p0 .uploading { retryCount := some 0 } clock)
        .pending_upload
        { retryCount := some 1, lastError := some e1, lastAttempt := some clock }
        clock)
        .uploading { retryCount := some 1 } (clock + 1)))
        (applyPhotoPatch
        (applyPhotoPatch
        (applyPhotoPatch
        (applyPhotoPatch p0 .uploading { retryCount := some 0 } clock)
        .pending_upload
        { retryCount := some 1, lastError := some e1, lastAttempt := some clock }
        clock)
        .uploading { retryCount := some 1 } (clock + 1))
        .pending_upload
        { retryCount := some 2, lastError := some e2, lastAttempt := some (clock + 1) }
        (clock + 1)))
      (c3 :: netrest) (clock + 2) _ e3
      (by show ¬((2:Nat) < MAX_RETRIES - 1); decide) h03 hu3
    -- assemble the three iterations and the empty-queue exit
    have e3go : processQueueGo 3 [{ photo := ph, auditId := aid, driveResources := dr, retryCount := 2 }]
        (putPhoto (putPhoto (putPhoto (putPhoto st
          (applyPhotoPatch p0 .uploading { retryCount := some 0 } clock))
          (applyPhotoPatch
          (applyPhotoPatch p0 .uploading { retryCount := some 0 } clock)
          .pending_upload
          { retryCount := some 1, lastError := some e1, lastAttempt := some clock }
          clock))
          (applyPhotoPatch
          (applyPhotoPatch
          (applyPhotoPatch p0 .uploading { retryCount := some 0 } clock)
          .pending_upload
          { retryCount := some 1, lastError := some e1, lastAttempt := some clock }
          clock)
          .uploading { retryCount := some 1 } (clock + 1)))
          (applyPhotoPatch
          (applyPhotoPatch
          (applyPhotoPatch
          (applyPhotoPatch p0 .uploading { retryCount := some 0 } clock)
          .pending_upload
          { retryCount := some 1, lastError := some e1, lastAttempt := some clock }
          clock)
          .uploading { retryCount := some 1 } (clock + 1))
          .pending_upload
          { retryCount := some 2, lastError := some e2, lastAttempt := some (clock + 1) }
          (clock + 1)))
        (c3 :: netrest) (clock + 2) =
        { outcome := .ok (),
           store := putPhoto (putPhoto (putPhoto (putPhoto (putPhoto (putPhoto st
             (applyPhotoPatch p0 .uploading { retryCount := some 0 } clock))
             (applyPhotoPatch
             (applyPhotoPatch p0 .uploading { retryCount := some 0 } clock)
             .pending_upload
             { retryCount := some 1, lastError := some e1, lastAttempt := some clock }
             clock))
             (applyPhotoPatch
             (applyPhotoPatch
             (applyPhotoPatch p0 .uploading { retryCount := some 0 } clock)
             .pending_upload
             { retryCount := some 1, lastError := some e1, lastAttempt := some clock }
             clock)
             .uploading { retryCount := some 1 } (clock + 1)))
             (applyPhotoPatch
             (applyPhotoPatch
             (applyPhotoPatch
             (applyPhotoPatch p0 .uploading { retryCount := some 0 } clock)
             .pending_upload
             { retryCount := some 1, lastError := some e1, lastAttempt := some clock }
             clock)
             .uploading { retryCount := some 1 } (clock + 1))
             .pending_upload
             { retryCount := some 2, lastError := some e2, lastAttempt := some (clock + 1) }
             (clock + 1)))
             (applyPhotoPatch
             (applyPhotoPatch
             (applyPhotoPatch
             (applyPhotoPatch
             (applyPhotoPatch p0 .uploading { retryCount := some 0 } clock)
             .pending_upload
             { retryCount := some 1, lastError := some e1, lastAttempt := some clock }
             clock)
             .uploading { retryCount := some 1 } (clock + 1))
             .pending_upload
             { retryCount := some 2, lastError := some e2, lastAttempt := some (clock + 1) }
             (clock + 1))
             .uploading { retryCount := some 2 } (clock + 2)))
             (applyPhotoPatch
             (applyPhotoPatch
             (applyPhotoPatch
             (applyPhotoPatch
             (applyPhotoPatch
             (applyPhotoPatch p0 .uploading { retryCount := some 0 } clock)
             .pending_upload
             { retryCount := some 1, lastError := some e1, lastAttempt := some clock }
             clock)
             .uploading { retryCount := some 1 } (clock + 1))
             .pending_upload
             { retryCount := some 2, lastError := some e2, lastAttempt := some (clock + 1) }
             (clock + 1))
             .uploading { retryCount := some 2 } (clock + 2))
             .failed
             { errorMsg := some e3, lastAttempt := some (clock + 2), retryCount := some 3 }
             (clock + 2)),
           events := [.uploadingEv ph.id 1 2, .failedEv ph.id e3 0, .rejectedEv ph.id e3],
           net := netrest } :=
      (processQueueGo_cont 2 hs3).trans rfl
    have e2go : processQueueGo 4 [{ photo := ph, auditId := aid, driveResources := dr, retryCount := 1 }]
        (putPhoto (putPhoto st
          (applyPhotoPatch p0 .uploading { retryCount := some 0 } clock))
          (applyPhotoPatch
          (applyPhotoPatch p0 .uploading { retryCount := some 0 } clock)
          .pending_upload
          { retryCount := some 1, lastError := some e1, lastAttempt := some clock }
          clock))
        (c2 :: c3 :: netrest) (clock + 1) =
        { outcome := .ok (),
           store := putPhoto (putPhoto (putPhoto (putPhoto (putPhoto (putPhoto st
             (applyPhotoPatch p0 .uploading { retryCount := some 0 } clock))
             (applyPhotoPatch
             (applyPhotoPatch p0 .uploading { retryCount := some 0 } clock)
             .pending_upload
             { retryCount := some 1, lastError := some e1, lastAttempt := some clock }
             clock))
             (applyPhotoPatch
             (applyPhotoPatch
             (applyPhotoPatch p0 .uploading { retryCount := some 0 } clock)
             .pending_upload
             { retryCount := some 1, lastError := some e1, lastAttempt := some clock }
             clock)
             .uploading { retryCount := some 1 } (clock + 1)))
             (applyPhotoPatch
             (applyPhotoPatch
             (applyPhotoPatch
             (applyPhotoPatch p0 .uploading { retryCount := some 0 } clock)
             .pending_upload
             { retryCount := some 1, lastError := some e1, lastAttempt := some clock }
             clock)
             .uploading { retryCount := some 1 } (clock + 1))
             .pending_upload
             { retryCount := some 2, lastError := some e2, lastAttempt := some (clock + 1) }
             (clock + 1)))
             (applyPhotoPatch
             (applyPhotoPatch
             (applyPhotoPatch
             (applyPhotoPatch
             (applyPhotoPatch p0 .uploading { retryCount := some 0 } clock)
             .pending_upload
             { retryCount := some 1, lastError := some e1, lastAttempt := some clock }
             clock)
             .uploading { retryCount := some 1 } (clock + 1))
             .pending_upload
             { retryCount := some 2, lastError := some e2, lastAttempt := some (clock + 1) }
             (clock + 1))
             .uploading { retryCount := some 2 } (clock + 2)))
             (applyPhotoPatch
             (applyPhotoPatch
             (applyPhotoPatch
             (applyPhotoPatch
             (applyPhotoPatch
             (applyPhotoPatch p0 .uploading { retryCount := some 0 } clock)
             .pending_upload
             { retryCount := some 1, lastError := some e1, lastAttempt := some clock }
             clock)
             .uploading { retryCount := some 1 } (clock + 1))
             .pending_upload
             { retryCount := some 2, lastError := some e2, lastAttempt := some (clock + 1) }
             (clock + 1))
             .uploading { retryCount := some 2 } (clock + 2))
             .failed
             { errorMsg := some e3, lastAttempt := some (clock + 2), retryCount := some 3 }
             (clock + 2)),
           events := [.uploadingEv ph.id 1 1, .retryingEv ph.id 2 1, .waitedEv RETRY_DELAY_MS,
            .uploadingEv ph.id 1 2, .failedEv ph.id e3 0, .rejectedEv ph.id e3],
           net := netrest } :=
      (processQueueGo_cont 3 hs2).trans
        ((queueRun_ev [.uploadingEv ph.id 1 1, .retryingEv ph.id 2 1,
          .waitedEv RETRY_DELAY_MS] e3go).trans rfl)
    have e1go : processQueueGo 5 [{ photo := ph, auditId := aid, driveResources := dr, retryCount := 0 }]
        st (c1 :: c2 :: c3 :: netrest) clock =
        { outcome := .ok (),
           store := putPhoto (putPhoto (putPhoto (putPhoto (putPhoto (putPhoto st
             (applyPhotoPatch p0 .uploading { retryCount := some 0 } clock))
             (applyPhotoPatch
             (applyPhotoPatch p0 .uploading { retryCount := some 0 } clock)
             .pending_upload
             { retryCount := some 1, lastError := some e1, lastAttempt := some clock }
             clock))
             (applyPhotoPatch
             (applyPhotoPatch
             (applyPhotoPatch p0 .uploading { retryCount := some 0 } clock)
             .pending_upload
             { retryCount := some 1, lastError := some e1, lastAttempt := some clock }
             clock)
             .uploading { retryCount := some 1 } (clock + 1)))
             (applyPhotoPatch
             (applyPhotoPatch
             (applyPhotoPatch
             (applyPhotoPatch p0 .uploading { retryCount := some 0 } clock)
             .pending_upload
             { retryCount := some 1, lastError := some e1, lastAttempt := some clock }
             clock)
             .uploading { retryCount := some 1 } (clock + 1))
             .pending_upload
             { retryCount := some 2, lastError := some e2, lastAttempt := some (clock + 1) }
             (clock + 1)))
             (applyPhotoPatch
             (applyPhotoPatch
             (applyPhotoPatch
             (applyPhotoPatch
             (applyPhotoPatch p0 .uploading { retryCount := some 0 } clock)
             .pending_upload
             { retryCount := some 1, lastError := some e1, lastAttempt := some clock }
             clock)
             .uploading { retryCount := some 1 } (clock + 1))
             .pending_upload
             { retryCount := some 2, lastError := some e2, lastAttempt := some (clock + 1) }
             (clock + 1))
             .uploading { retryCount := some 2 } (clock + 2)))
             (applyPhotoPatch
             (applyPhotoPatch
             (applyPhotoPatch
             (applyPhotoPatch
             (applyPhotoPatch
             (applyPhotoPatch p0 .uploading { retryCount := some 0 } clock)
             .pending_upload
             { retryCount := some 1, lastError := some e1, lastAttempt := some clock }
             clock)
             .uploading { retryCount := some 1 } (clock + 1))
             .pending_upload
             { retryCount := some 2, lastError := some e2, lastAttempt := some (clock + 1) }
             (clock + 1))
             .uploading { retryCount := some 2 } (clock + 2))
             .failed
             { errorMsg := some e3, lastAttempt := some (clock + 2), retryCount := some 3 }
             (clock + 2)),
           events := [.uploadingEv ph.id 1 0, .retryingEv ph.id 1 1, .waitedEv RETRY_DELAY_MS,
            .uploadingEv ph.id 1 1, .retryingEv ph.id 2 1, .waitedEv RETRY_DELAY_MS,
            .uploadingEv ph.id 1 2, .failedEv ph.id e3 0, .rejectedEv ph.id e3],
           net := netrest } :=
      (processQueueGo_cont 4 hs1).trans
        ((queueRun_ev [.uploadingEv ph.id 1 0, .retryingEv ph.id 1 1,
          .waitedEv RETRY_DELAY_MS] e2go).trans rfl)
    have eqRun : processQueue false
        [{ photo := ph, auditId := aid, driveResources := dr, retryCount := 0 }]
        st (c1 :: c2 :: c3 :: netrest) clock =
        { outcome := .ok (),
           store := putPhoto (putPhoto (putPhoto (putPhoto (putPhoto (putPhoto st
             (applyPhotoPatch p0 .uploading { retryCount := some 0 } clock))
             (applyPhotoPatch
             (applyPhotoPatch p0 .uploading { retryCount := some 0 } clock)
             .pending_upload
             { retryCount := some 1, lastError := some e1, lastAttempt := some clock }
             clock))
             (applyPhotoPatch
             (applyPhotoPatch
             (applyPhotoPatch p0 .uploading { retryCount := some 0 } clock)
             .pending_upload
             { retryCount := some 1, lastError := some e1, lastAttempt := some clock }
             clock)
             .uploading { retryCount := some 1 } (clock + 1)))
             (applyPhotoPatch
             (applyPhotoPatch
             (applyPhotoPatch
             (applyPhotoPatch p0 .uploading { retryCount := some 0 } clock)
             .pending_upload
             { retryCount := some 1, lastError := some e1, lastAttempt := some clock }
             clock)
             .uploading { retryCount := some 1 } (clock + 1))
             .pending_upload
             { retryCount := some 2, lastError := some e2, lastAttempt := some (clock + 1) }
             (clock + 1)))
             (applyPhotoPatch
             (applyPhotoPatch
             (applyPhotoPatch
             (applyPhotoPatch
             (applyPhotoPatch p0 .uploading { retryCount := some 0 } clock)
             .pending_upload
             { retryCount := some 1, lastError := some e1, lastAttempt := some clock }
             clock)
             .uploading { retryCount := some 1 } (clock + 1))
             .pending_upload
             { retryCount := some 2, lastError := some e2, lastAttempt := some (clock + 1) }
             (clock + 1))
             .uploading { retryCount := some 2 } (clock + 2)))
             (applyPhotoPatch
             (applyPhotoPatch
             (applyPhotoPatch
             (applyPhotoPatch
             (applyPhotoPatch
             (applyPhotoPatch p0 .uploading { retryCount := some 0 } clock)
             .pending_upload
             { retryCount := some 1, lastError := some e1, lastAttempt := some clock }
             clock)
             .uploading { retryCount := some 1 } (clock + 1))
             .pending_upload
             { retryCount := some 2, lastError := some e2, lastAttempt := some (clock + 1) }
             (clock + 1))
             .uploading { retryCount := some 2 } (clock + 2))
             .failed
             { errorMsg := some e3, lastAttempt := some (clock + 2), retryCount := some 3 }
             (clock + 2)),
           events := [.uploadingEv ph.id 1 0, .retryingEv ph.id 1 1, .waitedEv RETRY_DELAY_MS,
            .uploadingEv ph.id 1 1, .retryingEv ph.id 2 1, .waitedEv RETRY_DELAY_MS,
            .uploadingEv ph.id 1 2, .failedEv ph.id e3 0, .rejectedEv ph.id e3,
            .completeEv],
           isUploading := false } := by
      unfold processQueue
      rw [if_neg (by simp), if_neg (by simp)]
      dsimp only
      rw [show processQueueGo (queueFuel
          [{ photo := ph, auditId := aid, driveResources := dr, retryCount := 0 }])
          [{ photo := ph, auditId := aid, driveResources := dr, retryCount := 0 }]
          st (c1 :: c2 :: c3 :: netrest) clock =
          { outcome := Except.ok (),
             store := putPhoto (putPhoto (putPhoto (putPhoto (putPhoto (putPhoto st
               (applyPhotoPatch p0 .uploading { retryCount := some 0 } clock))
               (applyPhotoPatch
               (applyPhotoPatch p0 .uploading { retryCount := some 0 } clock)
               .pending_upload
               { retryCount := some 1, lastError := some e1, lastAttempt := some clock }
               clock))
               (applyPhotoPatch
               (applyPhotoPatch
               (applyPhotoPatch p0 .uploading { retryCount := some 0 } clock)
               .pending_upload
               { retryCount := some 1, lastError := some e1, lastAttempt := some clock }
               clock)
               .uploading { retryCount := some 1 } (clock + 1)))
               (applyPhotoPatch
               (applyPhotoPatch
               (applyPhotoPatch
               (applyPhotoPatch p0 .uploading { retryCount := some 0 } clock)
               .pending_upload
               { retryCount := some 1, lastError := some e1, lastAttempt := some clock }
               clock)
               .uploading { retryCount := some 1 } (clock + 1))
               .pending_upload
               { retryCount := some 2, lastError := some e2, lastAttempt := some (clock + 1) }
               (clock + 1)))
               (applyPhotoPatch
               (applyPhotoPatch
               (applyPhotoPatch
               (applyPhotoPatch
               (applyPhotoPatch p0 .uploading { retryCount := some 0 } clock)
               .pending_upload
               { retryCount := some 1, lastError := some e1, lastAttempt := some clock }
               clock)
               .uploading { retryCount := some 1 } (clock + 1))
               .pending_upload
               { retryCount := some 2, lastError := some e2, lastAttempt := some (clock + 1) }
               (clock + 1))
               .uploading { retryCount := some 2 } (clock + 2)))
               (applyPhotoPatch
               (applyPhotoPatch
               (applyPhotoPatch
               (applyPhotoPatch
               (applyPhotoPatch
               (applyPhotoPatch p0 .uploading { retryCount := some 0 } clock)
               .pending_upload
               { retryCount := some 1, lastError := some e1, lastAttempt := some clock }
               clock)
               .uploading { retryCount := some 1 } (clock + 1))
               .pending_upload
               { retryCount := some 2, lastError := some e2, lastAttempt := some (clock + 1) }
               (clock + 1))
               .uploading { retryCount := some 2 } (clock + 2))
               .failed
               { errorMsg := some e3, lastAttempt := some (clock + 2), retryCount := some 3 }
               (clock + 2)),
             events := [.uploadingEv ph.id 1 0, .retryingEv ph.id 1 1, .waitedEv RETRY_DELAY_MS,
              .uploadingEv ph.id 1 1, .retryingEv ph.id 2 1, .waitedEv RETRY_DELAY_MS,
              .uploadingEv ph.id 1 2, .failedEv ph.id e3 0, .rejectedEv ph.id e3],
             net := netrest } from e1go]
      rfl
    refine ⟨?_, ?_, ?_, ?_⟩
    · rw [eqRun]
    · rw [eqRun]
    · rw [eqRun]
    · refine ⟨applyPhotoPatch
          (applyPhotoPatch
          (applyPhotoPatch
          (applyPhotoPatch
          (applyPhotoPatch
          (applyPhotoPatch p0 .uploading { retryCount := some 0 } clock)
          .pending_upload
          { retryCount := some 1, lastError := some e1, lastAttempt := some clock }
          clock)
          .uploading { retryCount := some 1 } (clock + 1))
          .pending_upload
          { retryCount := some 2, lastError := some e2, lastAttempt := some (clock + 1) }
          (clock + 1))
          .uploading { retryCount := some 2 } (clock + 2))
          .failed
          { errorMsg := some e3, lastAttempt := some (clock + 2), retryCount := some 3 }
          (clock + 2), ?_, rfl, rfl, rfl⟩
      rw [eqRun]
      show getPhoto
        (putPhoto (putPhoto (putPhoto (putPhoto (putPhoto (putPhoto st
          (applyPhotoPatch p0 .uploading { retryCount := some 0 } clock))
          (applyPhotoPatch
          (applyPhotoPatch p0 .uploading { retryCount := some 0 } clock)
          .pending_upload
          { retryCount := some 1, lastError := some e1, lastAttempt := some clock }
          clock))
          (applyPhotoPatch
          (applyPhotoPatch
          (applyPhotoPatch p0 .uploading { retryCount := some 0 } clock)
          .pending_upload
          { retryCount := some 1, lastError := some e1, lastAttempt := some clock }
          clock)
          .uploading { retryCount := some 1 } (clock + 1)))
          (applyPhotoPatch
          (applyPhotoPatch
          (applyPhotoPatch
          (applyPhotoPatch p0 .uploading { retryCount := some 0 } clock)
          .pending_upload
          { retryCount := some 1, lastError := some e1, lastAttempt := some clock }
          clock)
          .uploading { retryCount := some 1 } (clock + 1))
          .pending_upload
          { retryCount := some 2, lastError := some e2, lastAttempt := some (clock + 1) }
          (clock + 1)))
          (applyPhotoPatch
          (applyPhotoPatch
          (applyPhotoPatch
          (applyPhotoPatch
          (applyPhotoPatch p0 .uploading { retryCount := some 0 } clock)
          .pending_upload
          { retryCount := some 1, lastError := some e1, lastAttempt := some clock }
          clock)
          .uploading { retryCount := some 1 } (clock + 1))
          .pending_upload
          { retryCount := some 2, lastError := some e2, lastAttempt := some (clock + 1) }
          (clock + 1))
          .uploading { retryCount := some 2 } (clock + 2)))
          (applyPhotoPatch
          (applyPhotoPatch
          (applyPhotoPatch
          (applyPhotoPatch
          (applyPhotoPatch
          (applyPhotoPatch p0 .uploading { retryCount := some 0 } clock)
          .pending_upload
          { retryCount := some 1, lastError := some e1, lastAttempt := some clock }
          clock)
          .uploading { retryCount := some 1 } (clock + 1))
          .pending_upload
          { retryCount := some 2, lastError := some e2, lastAttempt := some (clock + 1) }
          (clock + 1))
          .uploading { retryCount := some 2 } (clock + 2))
          .failed
          { errorMsg := some e3, lastAttempt := some (clock + 2), retryCount := some 3 }
          (clock + 2))) ph.id = _
      rw [getPhoto_putPhoto, if_pos (by
        rw [applyPhotoPatch_id, applyPhotoPatch_id, applyPhotoPatch_id,
          applyPhotoPatch_id, applyPhotoPatch_id, applyPhotoPatch_id]
        exact hid0)]

def wFailCall : UploadCall := { token := .ok (), transfer := .error "boom" }

/-- Witness for C2: a concrete photo whose three attempts all fail. -/
theorem upload_retry_bounded_witness :
    (getPhoto wStore1 wTask1.photo.id = some wPhoto1 ∧
     uploadPhotoToDrive wTask1.photo ([wFailCall].headD noOracle) = .error "boom" ∧
     ∃ st2 p2,
       processQueueStep wTask1 [] wStore1 [wFailCall] 0 =
         .cont [{ wTask1 with retryCount := 1 }] st2
           [.uploadingEv 2 1 0, .retryingEv 2 1 1, .waitedEv RETRY_DELAY_MS]
           [] 1 ∧
       getPhoto st2 wTask1.photo.id = some p2 ∧
       p2.status = .pending_upload ∧ p2.lastError = some "boom" ∧
       p2.retryCount = 1) ∧
    ((processQueue false
        [{ photo := wPhoto1, auditId := 1, driveResources := none, retryCount := 0 }]
        wStore1 [wFailCall, wFailCall, wFailCall] 0).events =
      [.uploadingEv 2 1 0, .retryingEv 2 1 1, .waitedEv RETRY_DELAY_MS,
       .uploadingEv 2 1 1, .retryingEv 2 2 1, .waitedEv RETRY_DELAY_MS,
       .uploadingEv 2 1 2, .failedEv 2 "boom" 0, .rejectedEv 2 "boom",
       .completeEv] ∧
     ∃ p3, getPhoto (processQueue false
        [{ photo := wPhoto1, auditId := 1, driveResources := none, retryCount := 0 }]
        wStore1 [wFailCall, wFailCall, wFailCall] 0).store 2 = some p3 ∧
       p3.status = .failed ∧ p3.errorMsg = some "boom" ∧ p3.retryCount = 3) :=
  ⟨⟨rfl, rfl, upload_retry_bounded.1 wTask1 [] wStore1 [wFailCall] 0 wPhoto1 "boom"
      (by decide) rfl rfl⟩,
   (upload_retry_bounded.2 wPhoto1 1 none wStore1 wFailCall wFailCall wFailCall
      [] 0 wPhoto1 "boom" "boom" "boom" rfl rfl rfl rfl).1,
   ((upload_retry_bounded.2 wPhoto1 1 none wStore1 wFailCall wFailCall wFailCall
      [] 0 wPhoto1 "boom" "boom" "boom" rfl rfl rfl rfl).2).2.2⟩

-- ======================= Claim C8 =======================

set_option maxHeartbeats 3200000 in
/-- C8: FIFO upload order in the part_008 worker. Three photos enqueued in
order P1, P2, P3 (tasks appended in arrival order, each with retryCount 0),
with every upload attempt succeeding, are processed strictly in that order by
the single worker: the trace is uploading/uploaded/resolved for P1, then for
P2, then for P3 — no two uploads overlap, promises resolve in enqueue order —
and each photo ends uploaded with its Drive reference recorded. -/
theorem upload_fifo_order (ph1 ph2 ph3 : Photo) (aid : Nat)
    (dr : Option DriveResources) (st : Store) (c1 c2 c3 : UploadCall)
    (netrest : List UploadCall) (clock : Nat) (q1 q2 q3 : Photo)
    (r1 r2 r3 : UploadResult)
    (h1 : getPhoto st ph1.id = some q1)
    (h2 : getPhoto st ph2.id = some q2)
    (h3 : getPhoto st ph3.id = some q3)
    (h12 : ph1.id ≠ ph2.id) (h13 : ph1.id ≠ ph3.id) (h23 : ph2.id ≠ ph3.id)
    (hu1 : uploadPhotoToDrive ph1 c1 = .ok r1)
    (hu2 : uploadPhotoToDrive ph2 c2 = .ok r2)
    (hu3 : uploadPhotoToDrive ph3 c3 = .ok r3) :
    (processQueue false
        [{ photo := ph1, auditId := aid, driveResources := dr, retryCount := 0 },
           { photo := ph2, auditId := aid, driveResources := dr, retryCount := 0 },
           { photo := ph3, auditId := aid, driveResources := dr, retryCount := 0 }]
        st (c1 :: c2 :: c3 :: netrest) clock).events =
      [.uploadingEv ph1.id 3 0, .uploadedEv ph1.id r1.fileId 2, .resolvedEv ph1.id r1.fileId,
       .uploadingEv ph2.id 2 0, .uploadedEv ph2.id r2.fileId 1, .resolvedEv ph2.id r2.fileId,
       .uploadingEv ph3.id 1 0, .uploadedEv ph3.id r3.fileId 0, .resolvedEv ph3.id r3.fileId,
       .completeEv] ∧
    (∃ p1f, getPhoto (processQueue false
        [{ photo := ph1, auditId := aid, driveResources := dr, retryCount := 0 },
           { photo := ph2, auditId := aid, driveResources := dr, retryCount := 0 },
           { photo := ph3, auditId := aid, driveResources := dr, retryCount := 0 }]
        st (c1 :: c2 :: c3 :: netrest) clock).store ph1.id = some p1f ∧
      p1f.status = .uploaded ∧ p1f.driveFileId = some r1.fileId) ∧
    (∃ p2f, getPhoto (processQueue false
        [{ photo := ph1, auditId := aid, driveResources := dr, retryCount := 0 },
           { photo := ph2, auditId := aid, driveResources := dr, retryCount := 0 },
           { photo := ph3, auditId := aid, driveResources := dr, retryCount := 0 }]
        st (c1 :: c2 :: c3 :: netrest) clock).store ph2.id = some p2f ∧
      p2f.status = .uploaded ∧ p2f.driveFileId = some r2.fileId) ∧
    (∃ p3f, getPhoto (processQueue false
        [{ photo := ph1, auditId := aid, driveResources := dr, retryCount := 0 },
           { photo := ph2, auditId := aid, driveResources := dr, retryCount := 0 },
           { photo := ph3, auditId := aid, driveResources := dr, retryCount := 0 }]
        st (c1 :: c2 :: c3 :: netrest) clock).store ph3.id = some p3f ∧
      p3f.status = .uploaded ∧ p3f.driveFileId = some r3.fileId) := by
  have hq1 : q1.id = ph1.id := getPhoto_id _ _ _ h1
  have hq2 : q2.id = ph2.id := getPhoto_id _ _ _ h2
  have hq3 : q3.id = ph3.id := getPhoto_id _ _ _ h3
  have hs1 := processQueueStep_success { photo := ph1, auditId := aid, driveResources := dr, retryCount := 0 }
    [{ photo := ph2, auditId := aid, driveResources := dr, retryCount := 0 }, { photo := ph3, auditId := aid, driveResources := dr, retryCount := 0 }]
    st (c1 :: c2 :: c3 :: netrest) clock q1 r1 h1 hu1
  have h02 : getPhoto
      (putPhoto (putPhoto st
        (applyPhotoPatch q1 .uploading { retryCount := some 0 } clock))
        (applyPhotoPatch
        (applyPhotoPatch q1 .uploading { retryCount := some 0 } clock)
        .uploaded
        { driveFileId := some r1.fileId, driveLink := some r1.webViewLink,
          uploadedAt := some clock, retryCount := some 0 }
        clock)) ph2.id = some q2 := by
    rw [getPhoto_putPhoto,
      if_neg (by rw [applyPhotoPatch_id, applyPhotoPatch_id, hq1]; exact h12),
      getPhoto_putPhoto,
      if_neg (by rw [applyPhotoPatch_id, hq1]; exact h12)]
    exact h2
  have hs2 := processQueueStep_success { photo := ph2, auditId := aid, driveResources := dr, retryCount := 0 }
    [{ photo := ph3, auditId := aid, driveResources := dr, retryCount := 0 }]
    (putPhoto (putPhoto st
      (applyPhotoPatch q1 .uploading { retryCount := some 0 } clock))
      (applyPhotoPatch
      (applyPhotoPatch q1 .uploading { retryCount := some 0 } clock)
      .uploaded
      { driveFileId := some r1.fileId, driveLink := some r1.webViewLink,
        uploadedAt := some clock, retryCount := some 0 }
      clock))
    (c2 :: c3 :: netrest) (clock + 1) q2 r2 h02 hu2
  have h03 : getPhoto
      (putPhoto (putPhoto (putPhoto (putPhoto st
        (applyPhotoPatch q1 .uploading { retryCount := some 0 } clock))
        (applyPhotoPatch
        (applyPhotoPatch q1 .uploading { retryCount := some 0 } clock)
        .uploaded
        { driveFileId := some r1.fileId, driveLink := some r1.webViewLink,
          uploadedAt := some clock, retryCount := some 0 }
        clock))
        (applyPhotoPatch q2 .uploading { retryCount := some 0 } (clock + 1)))
        (applyPhotoPatch
        (applyPhotoPatch q2 .uploading { retryCount := some 0 } (clock + 1))
        .uploaded
        { driveFileId := some r2.fileId, driveLink := some r2.webViewLink,
          uploadedAt := some (clock + 1), retryCount := some 0 }
        (clock + 1))) ph3.id = some q3 := by
    rw [getPhoto_putPhoto,
      if_neg (by rw [applyPhotoPatch_id, applyPhotoPatch_id, hq2]; exact h23),
      getPhoto_putPhoto,
      if_neg (by rw [applyPhotoPatch_id, hq2]; exact h23),
      getPhoto_putPhoto,
      if_neg (by rw [applyPhotoPatch_id, applyPhotoPatch_id, hq1]; exact h13),
      getPhoto_putPhoto,
      if_neg (by rw [applyPhotoPatch_id, hq1]; exact h13)]
    exact h3
  have hs3 := processQueueStep_success { photo := ph3, auditId := aid, driveResources := dr, retryCount := 0 }
    []
    (putPhoto (putPhoto (putPhoto (putPhoto st
      (applyPhotoPatch q1 .uploading { retryCount := some 0 } clock))
      (applyPhotoPatch
      (applyPhotoPatch q1 .uploading { retryCount := some 0 } clock)
      .uploaded
      { driveFileId := some r1.fileId, driveLink := some r1.webViewLink,
        uploadedAt := some clock, retryCount := some 0 }
      clock))
      (applyPhotoPatch q2 .uploading { retryCount := some 0 } (clock + 1)))
      (applyPhotoPatch
      (applyPhotoPatch q2 .uploading { retryCount := some 0 } (clock + 1))
      .uploaded
      { driveFileId := some r2.fileId, driveLink := some r2.webViewLink,
        uploadedAt := some (clock + 1), retryCount := some 0 }
      (clock + 1)))
    (c3 :: netrest) (clock + 2) q3 r3 h03 hu3
  have e3go : processQueueGo 11 [{ photo := ph3, auditId := aid, driveResources := dr, retryCount := 0 }]
      (putPhoto (putPhoto (putPhoto (putPhoto st
        (applyPhotoPatch q1 .uploading { retryCount := some 0 } clock))
        (applyPhotoPatch
        (applyPhotoPatch q1 .uploading { retryCount := some 0 } clock)
        .uploaded
        { driveFileId := some r1.fileId, driveLink := some r1.webViewLink,
          uploadedAt := some clock, retryCount := some 0 }
        clock))
        (applyPhotoPatch q2 .uploading { retryCount := some 0 } (clock + 1)))
        (applyPhotoPatch
        (applyPhotoPatch q2 .uploading { retryCount := some 0 } (clock + 1))
        .uploaded
        { driveFileId := some r2.fileId, driveLink := some r2.webViewLink,
          uploadedAt := some (clock + 1), retryCount := some 0 }
        (clock + 1)))
      (c3 :: netrest) (clock + 2) =
      { outcome := .ok (),
         store := putPhoto (putPhoto (putPhoto (putPhoto (putPhoto (putPhoto st
           (applyPhotoPatch q1 .uploading { retryCount := some 0 } clock))
           (applyPhotoPatch
           (applyPhotoPatch q1 .uploading { retryCount := some 0 } clock)
           .uploaded
           { driveFileId := some r1.fileId, driveLink := some r1.webViewLink,
             uploadedAt := some clock, retryCount := some 0 }
           clock))
           (applyPhotoPatch q2 .uploading { retryCount := some 0 } (clock + 1)))
           (applyPhotoPatch
           (applyPhotoPatch q2 .uploading { retryCount := some 0 } (clock + 1))
           .uploaded
           { driveFileId := some r2.fileId, driveLink := some r2.webViewLink,
             uploadedAt := some (clock + 1), retryCount := some 0 }
           (clock + 1)))
           (applyPhotoPatch q3 .uploading { retryCount := some 0 } (clock + 2)))
           (applyPhotoPatch
           (applyPhotoPatch q3 .uploading { retryCount := some 0 } (clock + 2))
           .uploaded
           { driveFileId := some r3.fileId, driveLink := some r3.webViewLink,
             uploadedAt := some (clock + 2), retryCount := some 0 }
           (clock + 2)),
         events := [.uploadingEv ph3.id 1 0, .uploadedEv ph3.id r3.fileId 0, .resolvedEv ph3.id r3.fileId],
         net := netrest } :=
    (processQueueGo_cont 10 hs3).trans rfl
  have e2go : processQueueGo 12 [{ photo := ph2, auditId := aid, driveResources := dr, retryCount := 0 }, { photo := ph3, auditId := aid, driveResources := dr, retryCount := 0 }]
      (putPhoto (putPhoto st
        (applyPhotoPatch q1 .uploading { retryCount := some 0 } clock))
        (applyPhotoPatch
        (applyPhotoPatch q1 .uploading { retryCount := some 0 } clock)
        .uploaded
        { driveFileId := some r1.fileId, driveLink := some r1.webViewLink,
          uploadedAt := some clock, retryCount := some 0 }
        clock))
      (c2 :: c3 :: netrest) (clock + 1) =
      { outcome := .ok (),
         store := putPhoto (putPhoto (putPhoto (putPhoto (putPhoto (putPhoto st
           (applyPhotoPatch q1 .uploading { retryCount := some 0 } clock))
           (applyPhotoPatch
           (applyPhotoPatch q1 .uploading { retryCount := some 0 } clock)
           .uploaded
           { driveFileId := some r1.fileId, driveLink := some r1.webViewLink,
             uploadedAt := some clock, retryCount := some 0 }
           clock))
           (applyPhotoPatch q2 .uploading { retryCount := some 0 } (clock + 1)))
           (applyPhotoPatch
           (applyPhotoPatch q2 .uploading { retryCount := some 0 } (clock + 1))
           .uploaded
           { driveFileId := some r2.fileId, driveLink := some r2.webViewLink,
             uploadedAt := some (clock + 1), retryCount := some 0 }
           (clock + 1)))
           (applyPhotoPatch q3 .uploading { retryCount := some 0 } (clock + 2)))
           (applyPhotoPatch
           (applyPhotoPatch q3 .uploading { retryCount := some 0 } (clock + 2))
           .uploaded
           { driveFileId := some r3.fileId, driveLink := some r3.webViewLink,
             uploadedAt := some (clock + 2), retryCount := some 0 }
           (clock + 2)),
         events := [.uploadingEv ph2.id 2 0, .uploadedEv ph2.id r2.fileId 1, .resolvedEv ph2.id r2.fileId,
          .uploadingEv ph3.id 1 0, .uploadedEv ph3.id r3.fileId 0, .resolvedEv ph3.id r3.fileId],
         net := netrest } :=
    (processQueueGo_cont 11 hs2).trans
      ((queueRun_ev [.uploadingEv ph2.id 2 0, .uploadedEv ph2.id r2.fileId 1,
        .resolvedEv ph2.id r2.fileId] e3go).trans rfl)
  have e1go : processQueueGo 13
      [{ photo := ph1, auditId := aid, driveResources := dr, retryCount := 0 },
           { photo := ph2, auditId := aid, driveResources := dr, retryCount := 0 },
           { photo := ph3, auditId := aid, driveResources := dr, retryCount := 0 }]
      st (c1 :: c2 :: c3 :: netrest) clock =
      { outcome := .ok (),
         store := putPhoto (putPhoto (putPhoto (putPhoto (putPhoto (putPhoto st
           (applyPhotoPatch q1 .uploading { retryCount := some 0 } clock))
           (applyPhotoPatch
           (applyPhotoPatch q1 .uploading { retryCount := some 0 } clock)
           .uploaded
           { driveFileId := some r1.fileId, driveLink := some r1.webViewLink,
             uploadedAt := some clock, retryCount := some 0 }
           clock))
           (applyPhotoPatch q2 .uploading { retryCount := some 0 } (clock + 1)))
           (applyPhotoPatch
           (applyPhotoPatch q2 .uploading { retryCount := some 0 } (clock + 1))
           .uploaded
           { driveFileId := some r2.fileId, driveLink := some r2.webViewLink,
             uploadedAt := some (clock + 1), retryCount := some 0 }
           (clock + 1)))
           (applyPhotoPatch q3 .uploading { retryCount := some 0 } (clock + 2)))
           (applyPhotoPatch
           (applyPhotoPatch q3 .uploading { retryCount := some 0 } (clock + 2))
           .uploaded
           { driveFileId := some r3.fileId, driveLink := some r3.webViewLink,
             uploadedAt := some (clock + 2), retryCount := some 0 }
           (clock + 2)),
         events := [.uploadingEv ph1.id 3 0, .uploadedEv ph1.id r1.fileId 2, .resolvedEv ph1.id r1.fileId,
          .uploadingEv ph2.id 2 0, .uploadedEv ph2.id r2.fileId 1, .resolvedEv ph2.id r2.fileId,
          .uploadingEv ph3.id 1 0, .uploadedEv ph3.id r3.fileId 0, .resolvedEv ph3.id r3.fileId],
         net := netrest } :=
    (processQueueGo_cont 12 hs1).trans
      ((queueRun_ev [.uploadingEv ph1.id 3 0, .uploadedEv ph1.id r1.fileId 2,
        .resolvedEv ph1.id r1.fileId] e2go).trans rfl)
  have eqRun : processQueue false
      [{ photo := ph1, auditId := aid, driveResources := dr, retryCount := 0 },
           { photo := ph2, auditId := aid, driveResources := dr, retryCount := 0 },
           { photo := ph3, auditId := aid, driveResources := dr, retryCount := 0 }]
      st (c1 :: c2 :: c3 :: netrest) clock =
      { outcome := .ok (),
         store := putPhoto (putPhoto (putPhoto (putPhoto (putPhoto (putPhoto st
           (applyPhotoPatch q1 .uploading { retryCount := some 0 } clock))
           (applyPhotoPatch
           (applyPhotoPatch q1 .uploading { retryCount := some 0 } clock)
           .uploaded
           { driveFileId := some r1.fileId, driveLink := some r1.webViewLink,
             uploadedAt := some clock, retryCount := some 0 }
           clock))
           (applyPhotoPatch q2 .uploading { retryCount := some 0 } (clock + 1)))
           (applyPhotoPatch
           (applyPhotoPatch q2 .uploading { retryCount := some 0 } (clock + 1))
           .uploaded
           { driveFileId := some r2.fileId, driveLink := some r2.webViewLink,
             uploadedAt := some (clock + 1), retryCount := some 0 }
           (clock + 1)))
           (applyPhotoPatch q3 .uploading { retryCount := some 0 } (clock + 2)))
           (applyPhotoPatch
           (applyPhotoPatch q3 .uploading { retryCount := some 0 } (clock + 2))
           .uploaded
           { driveFileId := some r3.fileId, driveLink := some r3.webViewLink,
             uploadedAt := some (clock + 2), retryCount := some 0 }
           (clock + 2)),
         events := [.uploadingEv ph1.id 3 0, .uploadedEv ph1.id r1.fileId 2, .resolvedEv ph1.id r1.fileId,
          .uploadingEv ph2.id 2 0, .uploadedEv ph2.id r2.fileId 1, .resolvedEv ph2.id r2.fileId,
          .uploadingEv ph3.id 1 0, .uploadedEv ph3.id r3.fileId 0, .resolvedEv ph3.id r3.fileId,
          .completeEv],
         isUploading := false } := by
    unfold processQueue
    rw [if_neg (by simp), if_neg (by simp)]
    dsimp only
    rw [show processQueueGo (queueFuel
        [{ photo := ph1, auditId := aid, driveResources := dr, retryCount := 0 },
           { photo := ph2, auditId := aid, driveResources := dr, retryCount := 0 },
           { photo := ph3, auditId := aid, driveResources := dr, retryCount := 0 }])
        [{ photo := ph1, auditId := aid, driveResources := dr, retryCount := 0 },
           { photo := ph2, auditId := aid, driveResources := dr, retryCount := 0 },
           { photo := ph3, auditId := aid, driveResources := dr, retryCount := 0 }]
        st (c1 :: c2 :: c3 :: netrest) clock =
        { outcome := Except.ok (),
           store := putPhoto (putPhoto (putPhoto (putPhoto (putPhoto (putPhoto st
             (applyPhotoPatch q1 .uploading { retryCount := some 0 } clock))
             (applyPhotoPatch
             (applyPhotoPatch q1 .uploading { retryCount := some 0 } clock)
             .uploaded
             { driveFileId := some r1.fileId, driveLink := some r1.webViewLink,
               uploadedAt := some clock, retryCount := some 0 }
             clock))
             (applyPhotoPatch q2 .uploading { retryCount := some 0 } (clock + 1)))
             (applyPhotoPatch
             (applyPhotoPatch q2 .uploading { retryCount := some 0 } (clock + 1))
             .uploaded
             { driveFileId := some r2.fileId, driveLink := some r2.webViewLink,
               uploadedAt := some (clock + 1), retryCount := some 0 }
             (clock + 1)))
             (applyPhotoPatch q3 .uploading { retryCount := some 0 } (clock + 2)))
             (applyPhotoPatch
             (applyPhotoPatch q3 .uploading { retryCount := some 0 } (clock + 2))
             .uploaded
             { driveFileId := some r3.fileId, driveLink := some r3.webViewLink,
               uploadedAt := some (clock + 2), retryCount := some 0 }
             (clock + 2)),
           events := [.uploadingEv ph1.id 3 0, .uploadedEv ph1.id r1.fileId 2, .resolvedEv ph1.id r1.fileId,
            .uploadingEv ph2.id 2 0, .uploadedEv ph2.id r2.fileId 1, .resolvedEv ph2.id r2.fileId,
            .uploadingEv ph3.id 1 0, .uploadedEv ph3.id r3.fileId 0, .resolvedEv ph3.id r3.fileId],
           net := netrest } from e1go]
    rfl
  refine ⟨?_, ?_, ?_, ?_⟩
  · rw [eqRun]
  · refine ⟨applyPhotoPatch
        (applyPhotoPatch q1 .uploading { retryCount := some 0 } clock)
        .uploaded
        { driveFileId := some r1.fileId, driveLink := some r1.webViewLink,
          uploadedAt := some clock, retryCount := some 0 }
        clock, ?_, rfl, rfl⟩
    rw [eqRun]
    show getPhoto
      (putPhoto (putPhoto (putPhoto (putPhoto (putPhoto (putPhoto st
        (applyPhotoPatch q1 .uploading { retryCount := some 0 } clock))
        (applyPhotoPatch
        (applyPhotoPatch q1 .uploading { retryCount := some 0 } clock)
        .uploaded
        { driveFileId := some r1.fileId, driveLink := some r1.webViewLink,
          uploadedAt := some clock, retryCount := some 0 }
        clock))
        (applyPhotoPatch q2 .uploading { retryCount := some 0 } (clock + 1)))
        (applyPhotoPatch
        (applyPhotoPatch q2 .uploading { retryCount := some 0 } (clock + 1))
        .uploaded
        { driveFileId := some r2.fileId, driveLink := some r2.webViewLink,
          uploadedAt := some (clock + 1), retryCount := some 0 }
        (clock + 1)))
        (applyPhotoPatch q3 .uploading { retryCount := some 0 } (clock + 2)))
        (applyPhotoPatch
        (applyPhotoPatch q3 .uploading { retryCount := some 0 } (clock + 2))
        .uploaded
        { driveFileId := some r3.fileId, driveLink := some r3.webViewLink,
          uploadedAt := some (clock + 2), retryCount := some 0 }
        (clock + 2))) ph1.id = _
    rw [getPhoto_putPhoto,
      if_neg (by rw [applyPhotoPatch_id, applyPhotoPatch_id, hq3]; exact (Ne.symm h13)),
      getPhoto_putPhoto,
      if_neg (by rw [applyPhotoPatch_id, hq3]; exact (Ne.symm h13)),
      getPhoto_putPhoto,
      if_neg (by rw [applyPhotoPatch_id, applyPhotoPatch_id, hq2]; exact (Ne.symm h12)),
      getPhoto_putPhoto,
      if_neg (by rw [applyPhotoPatch_id, hq2]; exact (Ne.symm h12)),
      getPhoto_putPhoto,
      if_pos (by rw [applyPhotoPatch_id, applyPhotoPatch_id]; exact hq1)]
  · refine ⟨applyPhotoPatch
        (applyPhotoPatch q2 .uploading { retryCount := some 0 } (clock + 1))
        .uploaded
        { driveFileId := some r2.fileId, driveLink := some r2.webViewLink,
          uploadedAt := some (clock + 1), retryCount := some 0 }
        (clock + 1), ?_, rfl, rfl⟩
    rw [eqRun]
    show getPhoto
      (putPhoto (putPhoto (putPhoto (putPhoto (putPhoto (putPhoto st
        (applyPhotoPatch q1 .uploading { retryCount := some 0 } clock))
        (applyPhotoPatch
        (applyPhotoPatch q1 .uploading { retryCount := some 0 } clock)
        .uploaded
        { driveFileId := some r1.fileId, driveLink := some r1.webViewLink,
          uploadedAt := some clock, retryCount := some 0 }
        clock))
        (applyPhotoPatch q2 .uploading { retryCount := some 0 } (clock + 1)))
        (applyPhotoPatch
        (applyPhotoPatch q2 .uploading { retryCount := some 0 } (clock + 1))
        .uploaded
        { driveFileId := some r2.fileId, driveLink := some r2.webViewLink,
          uploadedAt := some (clock + 1), retryCount := some 0 }
        (clock + 1)))
        (applyPhotoPatch q3 .uploading { retryCount := some 0 } (clock + 2)))
        (applyPhotoPatch
        (applyPhotoPatch q3 .uploading { retryCount := some 0 } (clock + 2))
        .uploaded
        { driveFileId := some r3.fileId, driveLink := some r3.webViewLink,
          uploadedAt := some (clock + 2), retryCount := some 0 }
        (clock + 2))) ph2.id = _
    rw [getPhoto_putPhoto,
      if_neg (by rw [applyPhotoPatch_id, applyPhotoPatch_id, hq3]; exact (Ne.symm h23)),
      getPhoto_putPhoto,
      if_neg (by rw [applyPhotoPatch_id, hq3]; exact (Ne.symm h23)),
      getPhoto_putPhoto,
      if_pos (by rw [applyPhotoPatch_id, applyPhotoPatch_id]; exact hq2)]
  · refine ⟨applyPhotoPatch
        (applyPhotoPatch q3 .uploading { retryCount := some 0 } (clock + 2))
        .uploaded
        { driveFileId := some r3.fileId, driveLink := some r3.webViewLink,
          uploadedAt := some (clock + 2), retryCount := some 0 }
        (clock + 2), ?_, rfl, rfl⟩
    rw [eqRun]
    show getPhoto
      (putPhoto (putPhoto (putPhoto (putPhoto (putPhoto (putPhoto st
        (applyPhotoPatch q1 .uploading { retryCount := some 0 } clock))
        (applyPhotoPatch
        (applyPhotoPatch q1 .uploading { retryCount := some 0 } clock)
        .uploaded
        { driveFileId := some r1.fileId, driveLink := some r1.webViewLink,
          uploadedAt := some clock, retryCount := some 0 }
        clock))
        (applyPhotoPatch q2 .uploading { retryCount := some 0 } (clock + 1)))
        (applyPhotoPatch
        (applyPhotoPatch q2 .uploading { retryCount := some 0 } (clock + 1))
        .uploaded
        { driveFileId := some r2.fileId, driveLink := some r2.webViewLink,
          uploadedAt := some (clock + 1), retryCount := some 0 }
        (clock + 1)))
        (applyPhotoPatch q3 .uploading { retryCount := some 0 } (clock + 2)))
        (applyPhotoPatch
        (applyPhotoPatch q3 .uploading { retryCount := some 0 } (clock + 2))
        .uploaded
        { driveFileId := some r3.fileId, driveLink := some r3.webViewLink,
          uploadedAt := some (clock + 2), retryCount := some 0 }
        (clock + 2))) ph3.id = _
    rw [getPhoto_putPhoto,
      if_pos (by rw [applyPhotoPatch_id, applyPhotoPatch_id]; exact hq3)]

def wPhotoA : Photo := { wPhoto1 with id := 11 }
def wPhotoB : Photo := { wPhoto1 with id := 12 }
def wPhotoC : Photo := { wPhoto1 with id := 13 }

def wStore8 : Store := { audits := [wAudit1], photos := [wPhotoA, wPhotoB, wPhotoC] }

def wCallA : UploadCall :=
  { token := .ok (), transfer := .ok { fileId := "fA", webViewLink := "lA" } }
def wCallB : UploadCall :=
  { token := .ok (), transfer := .ok { fileId := "fB", webViewLink := "lB" } }
def wCallC : UploadCall :=
  { token := .ok (), transfer := .ok { fileId := "fC", webViewLink := "lC" } }

/-- Witness for C8: three concrete photos drain in enqueue order. -/
theorem upload_fifo_order_witness :
    (processQueue false
        [{ photo := wPhotoA, auditId := 1, driveResources := none, retryCount := 0 },
         { photo := wPhotoB, auditId := 1, driveResources := none, retryCount := 0 },
         { photo := wPhotoC, auditId := 1, driveResources := none, retryCount := 0 }]
        wStore8 [wCallA, wCallB, wCallC] 0).events =
      [.uploadingEv 11 3 0, .uploadedEv 11 "fA" 2, .resolvedEv 11 "fA",
       .uploadingEv 12 2 0, .uploadedEv 12 "fB" 1, .resolvedEv 12 "fB",
       .uploadingEv 13 1 0, .uploadedEv 13 "fC" 0, .resolvedEv 13 "fC",
       .completeEv] ∧
    (∃ p1f, getPhoto (processQueue false
        [{ photo := wPhotoA, auditId := 1, driveResources := none, retryCount := 0 },
         { photo := wPhotoB, auditId := 1, driveResources := none, retryCount := 0 },
         { photo := wPhotoC, auditId := 1, driveResources := none, retryCount := 0 }]
        wStore8 [wCallA, wCallB, wCallC] 0).store 11 = some p1f ∧
      p1f.status = .uploaded ∧ p1f.driveFileId = some "fA") ∧
    (∃ p2f, getPhoto (processQueue false
        [{ photo := wPhotoA, auditId := 1, driveResources := none, retryCount := 0 },
         { photo := wPhotoB, auditId := 1, driveResources := none, retryCount := 0 },
         { photo := wPhotoC, auditId := 1, driveResources := none, retryCount := 0 }]
        wStore8 [wCallA, wCallB, wCallC] 0).store 12 = some p2f ∧
      p2f.status = .uploaded ∧ p2f.driveFileId = some "fB") ∧
    (∃ p3f, getPhoto (processQueue false
        [{ photo := wPhotoA, auditId := 1, driveResources := none, retryCount := 0 },
         { photo := wPhotoB, auditId := 1, driveResources := none, retryCount := 0 },
         { photo := wPhotoC, auditId := 1, driveResources := none, retryCount := 0 }]
        wStore8 [wCallA, wCallB, wCallC] 0).store 13 = some p3f ∧
      p3f.status = .uploaded ∧ p3f.driveFileId = some "fC") :=
  upload_fifo_order wPhotoA wPhotoB wPhotoC 1 none wStore8 wCallA wCallB wCallC
    [] 0 wPhotoA wPhotoB wPhotoC
    { fileId := "fA", webViewLink := "lA" }
    { fileId := "fB", webViewLink := "lB" }
    { fileId := "fC", webViewLink := "lC" }
    rfl rfl rfl (by decide) (by decide) (by decide) rfl rfl rfl

-- ======================= Claim C6 =======================

theorem syncOut_ev (ev : List SyncEv) {r1 r2 : SyncAuditOut} (h : r1 = r2) :
    ({ r1 with events := ev ++ r1.events } : SyncAuditOut) =
      { r2 with events := ev ++ r2.events } := by
  rw [h]

theorem syncAttempts_fail_retry (audit : Audit) (maxRetries attempt left : Nat)
    (st : Store) (envs : List AttemptEnv) (lastError : Option String)
    (clock : Nat) (e : String)
    (hsub : submitAudit audit (getAuditPhotos st audit.id)
      (envs.headD defaultAttemptEnv).submit = .error e)
    (hlt : attempt < maxRetries) :
    syncAttempts audit maxRetries attempt (left + 1) st envs lastError clock =
      { syncAttempts audit maxRetries (attempt + 1) left st envs.tail (some e)
          (clock + 1) with
        events := [.syncStartEv audit.id attempt,
            .syncRetryEv audit.id attempt (2 ^ attempt * 1000),
            .syncWaitEv (2 ^ attempt * 1000)] ++
          (syncAttempts audit maxRetries (attempt + 1) left st envs.tail (some e)
            (clock + 1)).events } := by
  conv_lhs => rw [syncAttempts]
  dsimp only
  rw [hsub]
  dsimp only
  rw [if_pos hlt]
  rfl

theorem syncAttempts_fail_last (audit : Audit) (maxRetries attempt left : Nat)
    (st : Store) (envs : List AttemptEnv) (lastError : Option String)
    (clock : Nat) (e : String)
    (hsub : submitAudit audit (getAuditPhotos st audit.id)
      (envs.headD defaultAttemptEnv).submit = .error e)
    (hge : ¬(attempt < maxRetries)) :
    syncAttempts audit maxRetries attempt (left + 1) st envs lastError clock =
      { syncAttempts audit maxRetries (attempt + 1) left st envs.tail (some e)
          (clock + 1) with
        events := [.syncStartEv audit.id attempt] ++
          (syncAttempts audit maxRetries (attempt + 1) left st envs.tail (some e)
            (clock + 1)).events } := by
  conv_lhs => rw [syncAttempts]
  dsimp only
  rw [hsub]
  dsimp only
  rw [if_neg hge]

/-- C6: exponential backoff in syncAuditWithRetry with maxRetries = 3. When
every submit attempt for one audit fails, the engine makes exactly three
attempts, waiting 2^1 seconds after the first failure and 2^2 seconds after
the second (the waits recorded between the attempt events), stops after the
third with no further wait, reports failure with the last error — and the
store is untouched, so the audit's status stays completed. -/
theorem sync_backoff_exponential (audit : Audit) (st : Store)
    (E1 E2 E3 : AttemptEnv) (envrest : List AttemptEnv) (clock : Nat)
    (m1 m2 m3 : String)
    (h1 : submitAudit audit (getAuditPhotos st audit.id) E1.submit = .error m1)
    (h2 : submitAudit audit (getAuditPhotos st audit.id) E2.submit = .error m2)
    (h3 : submitAudit audit (getAuditPhotos st audit.id) E3.submit = .error m3) :
    syncAuditWithRetry audit st 3 (E1 :: E2 :: E3 :: envrest) clock =
      { success := false, result := none, errMsg := some m3, store := st,
        events := [.syncStartEv audit.id 1,
          .syncRetryEv audit.id 1 2000, .syncWaitEv 2000,
          .syncStartEv audit.id 2,
          .syncRetryEv audit.id 2 4000, .syncWaitEv 4000,
          .syncStartEv audit.id 3, .syncErrorEv audit.id m3] } ∧
    ((getAudit st audit.id).map Audit.status = some .completed →
      (getAudit (syncAuditWithRetry audit st 3 (E1 :: E2 :: E3 :: envrest)
        clock).store audit.id).map Audit.status = some .completed) := by
  have b0 : syncAttempts audit 3 4 0 st envrest (some m3) (clock + 3) =
      { success := false, result := none, errMsg := some m3, store := st,
        events := [.syncErrorEv audit.id m3] } := rfl
  have b1 : syncAttempts audit 3 3 1 st (E3 :: envrest) (some m2) (clock + 2) =
      { success := false, result := none, errMsg := some m3, store := st,
        events := [.syncStartEv audit.id 3, .syncErrorEv audit.id m3] } :=
    (syncAttempts_fail_last audit 3 3 0 st (E3 :: envrest) (some m2) (clock + 2)
        m3 h3 (by decide)).trans
      ((syncOut_ev [.syncStartEv audit.id 3] b0).trans rfl)
  have b2 : syncAttempts audit 3 2 2 st (E2 :: E3 :: envrest) (some m1)
      (clock + 1) =
      { success := false, result := none, errMsg := some m3, store := st,
        events := [.syncStartEv audit.id 2,
          .syncRetryEv audit.id 2 4000, .syncWaitEv 4000,
          .syncStartEv audit.id 3, .syncErrorEv audit.id m3] } :=
    (syncAttempts_fail_retry audit 3 2 1 st (E2 :: E3 :: envrest) (some m1)
        (clock + 1) m2 h2 (by decide)).trans
      ((syncOut_ev [.syncStartEv audit.id 2, .syncRetryEv audit.id 2 4000,
        .syncWaitEv 4000] b1).trans rfl)
  have b3 : syncAttempts audit 3 1 3 st (E1 :: E2 :: E3 :: envrest) none clock =
      { success := false, result := none, errMsg := some m3, store := st,
        events := [.syncStartEv audit.id 1,
          .syncRetryEv audit.id 1 2000, .syncWaitEv 2000,
          .syncStartEv audit.id 2,
          .syncRetryEv audit.id 2 4000, .syncWaitEv 4000,
          .syncStartEv audit.id 3, .syncErrorEv audit.id m3] } :=
    (syncAttempts_fail_retry audit 3 1 2 st (E1 :: E2 :: E3 :: envrest) none
        clock m1 h1 (by decide)).trans
      ((syncOut_ev [.syncStartEv audit.id 1, .syncRetryEv audit.id 1 2000,
        .syncWaitEv 2000] b2).trans rfl)
  refine ⟨b3, ?_⟩
  intro hc
  rw [show (syncAuditWithRetry audit st 3 (E1 :: E2 :: E3 :: envrest)
    clock).store = st from congrArg SyncAuditOut.store b3]
  exact hc

def wFailEnv : AttemptEnv :=
  { submit := { token := .error "neterr", uploads := [],
                fetchResult := .error "neterr" },
    cleanupOk := true }

/-- Witness for C6 on a concrete completed audit whose submits all fail. -/
theorem sync_backoff_exponential_witness :
    submitAudit wAudit1 (getAuditPhotos wStore1 1) wFailEnv.submit =
      .error "neterr" ∧
    syncAuditWithRetry wAudit1 wStore1 3 [wFailEnv, wFailEnv, wFailEnv] 0 =
      { success := false, result := none, errMsg := some "neterr",
        store := wStore1,
        events := [.syncStartEv 1 1,
          .syncRetryEv 1 1 2000, .syncWaitEv 2000,
          .syncStartEv 1 2,
          .syncRetryEv 1 2 4000, .syncWaitEv 4000,
          .syncStartEv 1 3, .syncErrorEv 1 "neterr"] } ∧
    (getAudit (syncAuditWithRetry wAudit1 wStore1 3
        [wFailEnv, wFailEnv, wFailEnv] 0).store 1).map Audit.status =
      some .completed :=
  ⟨rfl,
   (sync_backoff_exponential wAudit1 wStore1 wFailEnv wFailEnv wFailEnv [] 0
      "neterr" "neterr" "neterr" rfl rfl rfl).1,
   (sync_backoff_exponential wAudit1 wStore1 wFailEnv wFailEnv wFailEnv [] 0
      "neterr" "neterr" "neterr" rfl rfl rfl).2 rfl⟩

-- ======================= Claim C4 =======================

/-- C4: when the first submit attempt of syncAuditWithRetry succeeds, the
engine first calls markAuditSynced (the markSynced event precedes the cleanup
event in the trace), then attempts to purge the audit's retained photo blobs;
a purge failure is non-fatal — the per-audit result still reports success and
the audit stays synced with syncResult recorded — and when the purge
succeeds, every uploaded photo of the audit has its blob cleared.
(cleanupSyncedAuditPhotos is modelled from the spec; see its definition.) -/
theorem sync_success_marks_then_purges (audit : Audit) (a0 : Audit)
    (st : Store) (E1 : AttemptEnv) (envrest : List AttemptEnv) (clock : Nat)
    (out : SubmitOut)
    (ha : getAudit st audit.id = some a0)
    (hsub : submitAudit audit (getAuditPhotos st audit.id) E1.submit = .ok out) :
    ∃ stFinal,
      syncAuditWithRetry audit st 3 (E1 :: envrest) clock =
        { success := true, result := some out.result, errMsg := none,
          store := stFinal,
          events := [.syncStartEv audit.id 1, .markSyncedEv audit.id,
            .cleanupEv audit.id E1.cleanupOk, .syncSuccessEv audit.id] } ∧
      (getAudit stFinal audit.id).map Audit.status = some .synced ∧
      (getAudit stFinal audit.id).bind Audit.syncResult = some out.result ∧
      (E1.cleanupOk = true → ∀ p ∈ getAuditPhotos stFinal audit.id,
        p.status = .uploaded → p.blob = none) := by
  have hid : (applyAuditUpdate a0
      { status := some .synced, syncedAt := some (some clock),
        syncResult := some (some out.result) } clock).id = audit.id := by
    rw [applyAuditUpdate_id]
    exact getAudit_id _ _ _ ha
  have hmark : markAuditSynced st audit.id out.result clock =
      .ok (putAudit st (applyAuditUpdate a0
          { status := some .synced, syncedAt := some (some clock),
            syncResult := some (some out.result) } clock),
        applyAuditUpdate a0
          { status := some .synced, syncedAt := some (some clock),
            syncResult := some (some out.result) } clock) :=
    updateAudit_ok st audit.id _ clock a0 ha
  have hga : getAudit (putAudit st (applyAuditUpdate a0
      { status := some .synced, syncedAt := some (some clock),
        syncResult := some (some out.result) } clock)) audit.id =
      some (applyAuditUpdate a0
        { status := some .synced, syncedAt := some (some clock),
          syncResult := some (some out.result) } clock) := by
    rw [getAudit_putAudit, if_pos hid]
  cases hc : E1.cleanupOk with
  | true =>
      refine ⟨{ putAudit st (applyAuditUpdate a0
          { status := some .synced, syncedAt := some (some clock),
            syncResult := some (some out.result) } clock) with
          photos := (putAudit st (applyAuditUpdate a0
            { status := some .synced, syncedAt := some (some clock),
              syncResult := some (some out.result) } clock)).photos.map
            (fun p => if p.auditId == audit.id && p.status == PhotoStatus.uploaded
              then { p with blob := none, blobDeleted := true,
                            blobDeletedAt := some clock }
              else p) }, ?_, ?_, ?_, ?_⟩
      · show syncAttempts audit 3 1 3 st (E1 :: envrest) none clock = _
        conv_lhs => rw [syncAttempts]
        dsimp only [List.headD, List.tail_cons]
        rw [hsub]
        dsimp only
        rw [hmark]
        dsimp only
        rw [hc]
        rfl
      · show (getAudit (putAudit st _) audit.id).map Audit.status = _
        rw [hga]
        rfl
      · show (getAudit (putAudit st _) audit.id).bind Audit.syncResult = _
        rw [hga]
        rfl
      · intro _ p hp hst
        have hp2 := List.mem_filter.mp hp
        obtain ⟨q, hq, hfq⟩ := List.mem_map.mp hp2.1
        by_cases hcq : (q.auditId == audit.id && q.status == PhotoStatus.uploaded) = true
        · rw [if_pos hcq] at hfq
          rw [← hfq]
        · rw [if_neg hcq] at hfq
          rw [← hfq] at hst hp2
          simp only [hst] at hcq
          simp only [Bool.and_eq_true] at hcq
          exact absurd ⟨hp2.2, by simp⟩ hcq
  | false =>
      refine ⟨putAudit st (applyAuditUpdate a0
          { status := some .synced, syncedAt := some (some clock),
            syncResult := some (some out.result) } clock), ?_, ?_, ?_, ?_⟩
      · show syncAttempts audit 3 1 3 st (E1 :: envrest) none clock = _
        conv_lhs => rw [syncAttempts]
        dsimp only [List.headD, List.tail_cons]
        rw [hsub]
        dsimp only
        rw [hmark]
        dsimp only
        rw [hc]
        rfl
      · rw [hga]
        rfl
      · rw [hga]
        rfl
      · intro hcon
        exact absurd hcon (by simp)

def wAudit4 : Audit :=
  { id := 1, siteName := "site", status := .completed, createdAt := 0,
    updatedAt := 0, checklist := some { sections := [] }, responses := [],
    syncResult := none, syncedAt := none, driveResources := none }

def wPhoto4 : Photo :=
  { wPhoto1 with
    status := .uploaded
    driveFileId := some "fU"
    driveLink := some "lU" }

def wStore4 : Store := { audits := [wAudit4], photos := [wPhoto4] }

def wEnv4 : AttemptEnv :=
  { submit := { token := .ok (), uploads := [], fetchResult := .ok 42 },
    cleanupOk := true }

def wOut4 : SubmitOut :=
  { result := 42,
    photosPayload := [some
      { itemId := "2.1", filename := "p.jpg", driveFileId := "fU",
        driveLink := some "lU", alreadyUploaded := true }],
    checklistSent := { sections := [] }, skipped := 0, directUploads := 0,
    warned := false }

/-- Witness for C4 at a concrete completed audit with one uploaded photo. -/
theorem sync_success_marks_then_purges_witness :
    getAudit wStore4 1 = some wAudit4 ∧
    submitAudit wAudit4 (getAuditPhotos wStore4 1) wEnv4.submit = .ok wOut4 ∧
    ∃ stFinal,
      syncAuditWithRetry wAudit4 wStore4 3 [wEnv4] 0 =
        { success := true, result := some wOut4.result, errMsg := none,
          store := stFinal,
          events := [.syncStartEv 1 1, .markSyncedEv 1,
            .cleanupEv 1 wEnv4.cleanupOk, .syncSuccessEv 1] } ∧
      (getAudit stFinal 1).map Audit.status = some .synced ∧
      (getAudit stFinal 1).bind Audit.syncResult = some wOut4.result ∧
      (wEnv4.cleanupOk = true → ∀ p ∈ getAuditPhotos stFinal 1,
        p.status = .uploaded → p.blob = none) :=
  ⟨rfl, rfl,
   sync_success_marks_then_purges wAudit4 wAudit4 wStore4 wEnv4 [] 0 wOut4
     rfl rfl⟩

-- ======================= Claim C7 =======================

theorem processPhotoForSubmit_skip (p : Photo)
    (ups : List (Except String UploadResult)) :
    (processPhotoForSubmit p ups).2.1 =
      if (processPhotoForSubmit p ups).1.isNone then 1 else 0 := by
  unfold processPhotoForSubmit
  split
  · rfl
  · split
    · split
      · rfl
      · rfl
    · rfl

theorem buildPhotoData_length (photos : List Photo) :
    ∀ ups, (buildPhotoData photos ups).1.length = photos.length := by
  induction photos with
  | nil => intro ups; rfl
  | cons p rest ih =>
      intro ups
      simp only [buildPhotoData, List.length_cons, ih]

theorem buildPhotoData_skipped (photos : List Photo) :
    ∀ ups, (buildPhotoData photos ups).2.1 =
      ((buildPhotoData photos ups).1).countP (fun o => o.isNone) := by
  induction photos with
  | nil => intro ups; rfl
  | cons p rest ih =>
      intro ups
      simp only [buildPhotoData]
      rw [List.countP_cons, processPhotoForSubmit_skip p ups,
        ih (processPhotoForSubmit p ups).2.2.2]
      cases h : ((processPhotoForSubmit p ups).1).isNone <;>
        simp [h, Nat.add_comm]

theorem buildPhotoData_lost (photos : List Photo) :
    ∀ ups i p, photos.get? i = some p →
      (p.status == PhotoStatus.uploaded && p.driveFileId.isSome) = false →
      p.blob = none →
      (buildPhotoData photos ups).1.get? i = some none := by
  induction photos with
  | nil => intro ups i p h; simp at h
  | cons q rest ih =>
      intro ups i p hget href hblob
      cases i with
      | zero =>
          have hq : q = p := by simpa using hget
          subst hq
          simp only [buildPhotoData, List.get?_cons_zero, Option.some.injEq]
          simp [processPhotoForSubmit, href, hblob]
      | succ n =>
          simp only [List.get?_cons_succ] at hget
          simp only [buildPhotoData, List.get?_cons_succ]
          exact ih _ n p hget href hblob

/-- C7: during payload assembly in submitAudit, a photo that has neither an
uploaded Drive reference (status uploaded with driveFileId) nor a blob
contributes no entry to the photos payload (its slot is null), increments the
skipped-photos counter — surfaced as a recorded warning — and never makes the
submission throw: with the token and the endpoint fine, submitAudit still
returns ok. -/
theorem submit_skips_lost_photos (audit : Audit) (photos : List Photo)
    (env : SubmitEnv) (cl : Checklist) (res : Nat) (i : Nat) (p : Photo)
    (hp : photos.get? i = some p)
    (href : (p.status == PhotoStatus.uploaded && p.driveFileId.isSome) = false)
    (hblob : p.blob = none)
    (htok : env.token = .ok ())
    (hcl : audit.checklist = some cl)
    (hfetch : env.fetchResult = .ok res) :
    ∃ out, submitAudit audit photos env = .ok out ∧
      out.photosPayload.length = photos.length ∧
      out.photosPayload.get? i = some none ∧
      0 < out.skipped ∧ out.warned = true := by
  have hlost := buildPhotoData_lost photos env.uploads i p hp href hblob
  have hpos : 0 < (buildPhotoData photos env.uploads).2.1 := by
    rw [buildPhotoData_skipped]
    exact List.countP_pos_iff.mpr ⟨none, List.get?_mem hlost, rfl⟩
  refine ⟨{ result := res,
            photosPayload := (buildPhotoData photos env.uploads).1,
            checklistSent := mergeChecklist cl audit.responses,
            skipped := (buildPhotoData photos env.uploads).2.1,
            directUploads := (buildPhotoData photos env.uploads).2.2.1,
            warned := (buildPhotoData photos env.uploads).2.1 != 0 },
    ?_, buildPhotoData_length photos env.uploads, hlost, hpos, ?_⟩
  · unfold submitAudit
    rw [htok]
    dsimp only
    rw [hcl]
    dsimp only
    rw [hfetch]
  · show ((buildPhotoData photos env.uploads).2.1 != 0) = true
    simp only [bne_iff_ne, ne_eq]
    omega

def wPhotoLost : Photo := { wPhoto1 with blob := none }

/-- Witness for C7: one photo with no blob and no Drive reference. -/
theorem submit_skips_lost_photos_witness :
    [wPhotoLost].get? 0 = some wPhotoLost ∧
    (wPhotoLost.status == PhotoStatus.uploaded &&
      wPhotoLost.driveFileId.isSome) = false ∧
    wPhotoLost.blob = none ∧
    ∃ out, submitAudit wAudit4 [wPhotoLost] wEnv4.submit = .ok out ∧
      out.photosPayload.length = 1 ∧
      out.photosPayload.get? 0 = some none ∧
      0 < out.skipped ∧ out.warned = true :=
  ⟨rfl, rfl, rfl,
   submit_skips_lost_photos wAudit4 [wPhotoLost] wEnv4.submit { sections := [] }
     42 0 wPhotoLost rfl rfl rfl rfl rfl rfl⟩

-- ============ Adequacy of the fuel embedding of the worker loop ============

/-- Termination measure of the worker loop: total remaining retry budget plus
queue length; every iteration strictly decreases it. -/
def qMeasure (q : List UploadTask) : Nat :=
  (q.map (fun t => MAX_RETRIES - t.retryCount)).sum + q.length

theorem processQueueStep_escape_db (t : UploadTask) (rest : List UploadTask)
    (st : Store) (net : List UploadCall) (clock : Nat) (e : QueueErr)
    (st2 : Store) (ev : List UploadEv)
    (h : processQueueStep t rest st net clock = .escape e st2 ev) :
    ∃ d, e = .db d := by
  unfold processQueueStep at h
  dsimp only at h
  split at h
  · split at h
    · split at h
      · exact ⟨_, (StepOut.escape.inj h).1.symm⟩
      · exact absurd h (by simp)
    · split at h
      · exact ⟨_, (StepOut.escape.inj h).1.symm⟩
      · exact absurd h (by simp)
  · split at h
    · split at h
      · split at h
        · exact ⟨_, (StepOut.escape.inj h).1.symm⟩
        · exact absurd h (by simp)
      · split at h
        · exact ⟨_, (StepOut.escape.inj h).1.symm⟩
        · exact absurd h (by simp)
    · split at h
      · split at h
        · split at h
          · exact ⟨_, (StepOut.escape.inj h).1.symm⟩
          · exact absurd h (by simp)
        · split at h
          · exact ⟨_, (StepOut.escape.inj h).1.symm⟩
          · exact absurd h (by simp)
      · exact absurd h (by simp)

theorem processQueueStep_measure (t : UploadTask) (rest : List UploadTask)
    (st : Store) (net : List UploadCall) (clock : Nat)
    (q2 : List UploadTask) (st2 : Store) (ev : List UploadEv)
    (net2 : List UploadCall) (clock2 : Nat)
    (h : processQueueStep t rest st net clock = .cont q2 st2 ev net2 clock2) :
    qMeasure q2 < qMeasure (t :: rest) := by
  have hdrop : qMeasure rest < qMeasure (t :: rest) := by
    simp only [qMeasure, List.map_cons, List.sum_cons, List.length_cons]
    omega
  have hrequeue : ∀ hrc : t.retryCount < MAX_RETRIES - 1,
      qMeasure (rest ++ [{ t with retryCount := t.retryCount + 1 }]) <
        qMeasure (t :: rest) := by
    intro hrc
    simp only [qMeasure, List.map_cons, List.sum_cons, List.length_cons,
      List.map_append, List.sum_append, List.length_append, List.map_nil,
      List.sum_nil, List.length_nil, List.sum_cons]
    simp only [MAX_RETRIES] at hrc ⊢
    omega
  unfold processQueueStep at h
  dsimp only at h
  split at h
  · split at h
    · split at h
      · exact absurd h (by simp)
      · rw [← (StepOut.cont.inj h).1]
        exact hrequeue (by assumption)
    · split at h
      · exact absurd h (by simp)
      · rw [← (StepOut.cont.inj h).1]
        exact hdrop
  · split at h
    · split at h
      · split at h
        · exact absurd h (by simp)
        · rw [← (StepOut.cont.inj h).1]
          exact hrequeue (by assumption)
      · split at h
        · exact absurd h (by simp)
        · rw [← (StepOut.cont.inj h).1]
          exact hdrop
    · split at h
      · split at h
        · split at h
          · exact absurd h (by simp)
          · rw [← (StepOut.cont.inj h).1]
            exact hrequeue (by assumption)
        · split at h
          · exact absurd h (by simp)
          · rw [← (StepOut.cont.inj h).1]
            exact hdrop
      · rw [← (StepOut.cont.inj h).1]
        exact hdrop

/-- With fuel above the measure the loop never hits the model's fuel guard:
queueFuel q = qMeasure q + 1 always suffices, so the fuel embedding is
faithful to the JS while loop (which terminates by the same measure). -/
theorem processQueueGo_no_fuelOut : ∀ (fuel : Nat) (q : List UploadTask)
    (st : Store) (net : List UploadCall) (clock : Nat),
    qMeasure q < fuel →
    (processQueueGo fuel q st net clock).outcome ≠ .error .fuelOut := by
  intro fuel
  induction fuel with
  | zero => intro q st net clock h; exact absurd h (Nat.not_lt_zero _)
  | succ n ih =>
      intro q st net clock h
      cases q with
      | nil => simp [processQueueGo]
      | cons t rest =>
          unfold processQueueGo
          cases hs : processQueueStep t rest st net clock with
          | cont q2 st2 ev net2 clock2 =>
              show (processQueueGo n q2 st2 net2 clock2).outcome ≠ _
              apply ih
              have hm := processQueueStep_measure t rest st net clock
                q2 st2 ev net2 clock2 hs
              omega
          | escape e st2 ev =>
              obtain ⟨d, rfl⟩ :=
                processQueueStep_escape_db t rest st net clock e st2 ev hs
              simp

theorem queueFuel_sufficient (q : List UploadTask) (st : Store)
    (net : List UploadCall) (clock : Nat) :
    (processQueueGo (queueFuel q) q st net clock).outcome ≠ .error .fuelOut := by
  apply processQueueGo_no_fuelOut
  simp only [queueFuel, qMeasure]
  omega

end AuditFlow